import Mathlib

/-!
# xdg-shell client integration: `qwaylandxdgshell.cpp`

A shallow embedding of `src/plugins/shellintegration/xdg-shell/qwaylandxdgshell.cpp`
(the `QWaylandXdgSurface`, its `Toplevel` and `Popup` roles, the `QWaylandXdgShell`)
together with theorems about the configure / ack handshake, window-state decoding, expose
buffering, role attachment, popup placement and destruction.

Conventions of the embedding

* C++ member functions become Lean functions taking the object first and returning the
  updated object together with the list of calls made on external collaborators
  (protocol requests and window / display callbacks), in program order.
* `Q_ASSERT` is a fatal assertion: a function that can hit one returns an `Outcome`.
  Reading a member through a null pointer ends the run as well (`Outcome.nullDeref`).
* `Qt::WindowStates` is a `QFlags` over a 32 bit `int`; it is embedded as a `Nat` bit mask
  with the operators `&`, `|`, `^` as `&&&`, `|||`, `^^^` and `~` as complement on 32 bits.
* Values read from the external window (`frameGeometry().size()`) are function arguments.
* `int` arithmetic wraps at 32 bits (`wrapInt32`); theorems about it state the range in
  which the C++ expression does not overflow.
-/

namespace QtWaylandClient

/-! ## Qt value types -/

/-- Qt window state flags `Qt::WindowState` (a `QFlags` bit mask stored in an `int`). -/
abbrev WindowStates := Nat

namespace Qt

/-- Flag `Qt::WindowNoState` = 0x0. -/
abbrev WindowNoState : WindowStates := 0
/-- Flag `Qt::WindowMinimized` = 0x1. -/
abbrev WindowMinimized : WindowStates := 1
/-- Flag `Qt::WindowMaximized` = 0x2. -/
abbrev WindowMaximized : WindowStates := 2
/-- Flag `Qt::WindowFullScreen` = 0x4. -/
abbrev WindowFullScreen : WindowStates := 4
/-- Flag `Qt::WindowActive` = 0x8. -/
abbrev WindowActive : WindowStates := 8

end Qt

/-- Truth value of `states & mask` in a C++ condition: some bit of `mask` is set. -/
def hasFlag (states mask : WindowStates) : Bool := (states &&& mask) != 0

/-- Operator `~mask` on the 32 bit integer behind `QFlags`. -/
def flagsNot (mask : WindowStates) : WindowStates := (2 ^ 32 - 1) ^^^ mask

/-- A flag set in the closed vocabulary Minimized, Maximized, FullScreen, Active. -/
def IsWindowStates (states : WindowStates) : Prop := states < 16

instance (states : WindowStates) : Decidable (IsWindowStates states) :=
  inferInstanceAs (Decidable (states < 16))

/-- Qt `QSize`: a pair of `int`s. -/
structure QSize where
  width : Int
  height : Int
  deriving DecidableEq

/-- Qt `QSize::isEmpty()`: `wd < 1 || ht < 1`. -/
def QSize.isEmpty (s : QSize) : Bool := decide (s.width < 1) || decide (s.height < 1)

/-- Qt `QRect`, by position and extent. -/
structure QRect where
  x : Int
  y : Int
  width : Int
  height : Int
  deriving DecidableEq

/-- Qt `QRegion`: a finite union of non-empty rectangles; `QRegion()` has none. -/
abbrev QRegion := List QRect

/-- Qt `QRegion::isEmpty()`. -/
def QRegion.isEmpty (r : QRegion) : Bool := List.isEmpty r

/-- The default constructed region `QRegion()`. -/
def QRegion.empty : QRegion := []

/-! ## Calls on external collaborators -/

/-- Calls leaving the shell integration: protocol requests towards the compositor and
callbacks into the window, display and window-system layers. -/
inductive Effect where
  /-- Request `xdg_surface.ack_configure(serial)`. -/
  | ack_configure (serial : Nat)
  /-- Request `xdg_surface.destroy`. -/
  | surface_destroy
  /-- Request `xdg_surface.get_toplevel`. -/
  | get_toplevel
  /-- Request `xdg_surface.get_popup`. -/
  | get_popup
  /-- Request `xdg_toplevel.destroy`. -/
  | toplevel_destroy
  /-- Request `xdg_toplevel.set_maximized`. -/
  | set_maximized
  /-- Request `xdg_toplevel.unset_maximized`. -/
  | unset_maximized
  /-- Request `xdg_toplevel.set_fullscreen(nullptr)`. -/
  | set_fullscreen
  /-- Request `xdg_toplevel.unset_fullscreen`. -/
  | unset_fullscreen
  /-- Request `xdg_toplevel.set_minimized`. -/
  | set_minimized
  /-- Request `xdg_toplevel.set_title`. -/
  | set_title (title : String)
  /-- Request `xdg_toplevel.set_app_id`. -/
  | set_app_id (appId : String)
  /-- Request `xdg_toplevel.set_parent(parent)`; `none` is a null proxy. -/
  | set_parent (parent : Option Nat)
  /-- Request `xdg_toplevel.move(seat, serial)`. -/
  | toplevel_move (seat : Nat) (serial : Nat)
  /-- Request `xdg_toplevel.resize(seat, serial, edges)`. -/
  | toplevel_resize (seat : Nat) (serial : Nat) (edges : Nat)
  /-- Request `xdg_popup.grab(seat, serial)`; the serial is a `uint32_t`. -/
  | popup_grab (seat : Nat) (serial : Nat)
  /-- Request `xdg_popup.destroy`. -/
  | popup_destroy
  /-- Request `xdg_wm_base.create_positioner`. -/
  | create_positioner
  /-- Request `xdg_positioner.set_anchor_rect(x, y, width, height)`. -/
  | set_anchor_rect (x y width height : Int)
  /-- Request `xdg_positioner.set_anchor(anchor)`. -/
  | set_anchor (anchor : Nat)
  /-- Request `xdg_positioner.set_gravity(gravity)`. -/
  | set_gravity (gravity : Nat)
  /-- Request `xdg_positioner.set_size(width, height)`. -/
  | set_size (width height : Int)
  /-- Request `xdg_positioner.destroy`. -/
  | positioner_destroy
  /-- Request `xdg_wm_base.pong(serial)`. -/
  | pong (serial : Nat)
  /-- Callback `QWaylandDisplay::handleWindowActivated(window)`. -/
  | handleWindowActivated
  /-- Callback `QWaylandDisplay::handleWindowDeactivated(window)`. -/
  | handleWindowDeactivated
  /-- Callback `QWaylandWindow::handleWindowStatesChanged(states)`. -/
  | handleWindowStatesChanged (states : WindowStates)
  /-- Callback `QWaylandWindow::resizeFromApplyConfigure(size)`. -/
  | resizeFromApplyConfigure (size : QSize)
  /-- Callback `QWaylandWindow::applyConfigureWhenPossible()`. -/
  | applyConfigureWhenPossible
  /-- Callback `QWindowSystemInterface::handleExposeEvent(window, region)`. -/
  | handleExposeEvent (region : QRegion)
  /-- Callback `QWindow::close()`. -/
  | window_close
  /-- Log line `qCWarning(lcQpaWayland)`. -/
  | warning
  deriving DecidableEq

/-- Result of a member function that can abort: either it ran to the end, giving the new
object and the calls it made, or a `Q_ASSERT` failed, or a member was read through a null
pointer; the aborting cases keep the calls made up to that point. -/
inductive Outcome (σ : Type) where
  | done (state : σ) (trace : List Effect)
  | assertFailed (trace : List Effect)
  | nullDeref (trace : List Effect)
  deriving DecidableEq

/-- Predicate: the call hit a failing `Q_ASSERT`. -/
def Outcome.failed {σ : Type} : Outcome σ → Bool
  | .done _ _ => false
  | .assertFailed _ => true
  | .nullDeref _ => false

/-- Calls made during the run, whether it finished or aborted. -/
def Outcome.trace {σ : Type} : Outcome σ → List Effect
  | .done _ tr => tr
  | .assertFailed tr => tr
  | .nullDeref tr => tr

/-- Object left by a run that finished. -/
def Outcome.state? {σ : Type} : Outcome σ → Option σ
  | .done st _ => some st
  | .assertFailed _ => none
  | .nullDeref _ => none

/-! ## Data model -/

/-- The anonymous struct behind `m_pending` and `m_applied`: a size and a flag set. -/
structure ToplevelState where
  size : QSize
  states : WindowStates
  deriving DecidableEq

/-- Class `QWaylandXdgSurface::Toplevel`. Field `object` is the wrapped `xdg_toplevel`
proxy (`isInitialized()` is `object != nullptr`). -/
structure Toplevel where
  m_pending : ToplevelState
  m_applied : ToplevelState
  m_normalSize : QSize
  object : Option Nat
  deriving DecidableEq

/-- Class `QWaylandXdgSurface::Popup`; `object` is the wrapped `xdg_popup` proxy. -/
structure Popup where
  object : Option Nat
  deriving DecidableEq

/-- Class `QWaylandXdgSurface`. -/
structure QWaylandXdgSurface where
  m_toplevel : Option Toplevel
  m_popup : Option Popup
  m_configured : Bool
  m_exposeRegion : QRegion
  m_pendingConfigureSerial : Nat
  deriving DecidableEq

/-- The three `XDG_TOPLEVEL_STATE_*` enumerators the `switch` of `xdg_toplevel_configure`
names. Their numeric values come from the generated protocol header. -/
structure XdgToplevelStateCodes where
  activated : Nat
  maximized : Nat
  fullscreen : Nat
  deriving DecidableEq

/-- Case labels of a C++ `switch` are pairwise different. -/
def XdgToplevelStateCodes.Distinct (c : XdgToplevelStateCodes) : Prop :=
  c.activated ≠ c.maximized ∧ c.activated ≠ c.fullscreen ∧ c.maximized ≠ c.fullscreen

instance (c : XdgToplevelStateCodes) : Decidable c.Distinct :=
  inferInstanceAs (Decidable (_ ∧ _ ∧ _))

/-- Values of the enumerators in the stable xdg-shell protocol:
maximized = 1, fullscreen = 2, (resizing = 3,) activated = 4. -/
def xdgShellCodes : XdgToplevelStateCodes :=
  { activated := 4, maximized := 1, fullscreen := 2 }

/-! ## `QWaylandXdgSurface::Toplevel` -/

/-- Method `Toplevel::applyConfigure()`; `frameSize` is what
`m_window->window()->frameGeometry().size()` returns. -/
def Toplevel.applyConfigure (t : Toplevel) (frameSize : QSize) : Toplevel × List Effect :=
  let normalSize :=
    if !(hasFlag t.m_applied.states (Qt.WindowMaximized ||| Qt.WindowFullScreen)) then frameSize
    else t.m_normalSize
  let pendingSize :=
    if t.m_pending.size.isEmpty && !normalSize.isEmpty then normalSize else t.m_pending.size
  let activated :=
    if hasFlag t.m_pending.states Qt.WindowActive && !(hasFlag t.m_applied.states Qt.WindowActive)
    then [Effect.handleWindowActivated] else []
  let deactivated :=
    if !(hasFlag t.m_pending.states Qt.WindowActive) && hasFlag t.m_applied.states Qt.WindowActive
    then [Effect.handleWindowDeactivated] else []
  let statesWithoutActive := t.m_pending.states &&& flagsNot Qt.WindowActive
  let pending : ToplevelState := { size := pendingSize, states := t.m_pending.states }
  ({ t with m_normalSize := normalSize, m_pending := pending, m_applied := pending },
   activated ++ deactivated ++
     [Effect.handleWindowStatesChanged statesWithoutActive,
      Effect.resizeFromApplyConfigure pendingSize])

/-- One iteration of the decoding loop: the `switch (xdgStates[i])`. -/
def decodeState (c : XdgToplevelStateCodes) (states : WindowStates) (code : Nat) : WindowStates :=
  if code = c.activated then states ||| Qt.WindowActive
  else if code = c.maximized then states ||| Qt.WindowMaximized
  else if code = c.fullscreen then states ||| Qt.WindowFullScreen
  else states

/-- Event handler `Toplevel::xdg_toplevel_configure(width, height, states)`; the `wl_array`
of `uint32_t` is a list of codes. -/
def Toplevel.xdg_toplevel_configure (c : XdgToplevelStateCodes) (t : Toplevel)
    (width height : Int) (states : List Nat) : Toplevel :=
  { t with m_pending :=
      { size := { width := width, height := height },
        states := states.foldl (decodeState c) Qt.WindowNoState } }

/-- Method `Toplevel::requestWindowStates(states)`. It assigns to no member. -/
def Toplevel.requestWindowStates (t : Toplevel) (states : WindowStates) :
    Toplevel × List Effect :=
  let changedStates := t.m_applied.states ^^^ states
  let maximized :=
    if hasFlag changedStates Qt.WindowMaximized then
      (if hasFlag states Qt.WindowMaximized then [Effect.set_maximized]
       else [Effect.unset_maximized])
    else []
  let fullscreen :=
    if hasFlag changedStates Qt.WindowFullScreen then
      (if hasFlag states Qt.WindowFullScreen then [Effect.set_fullscreen]
       else [Effect.unset_fullscreen])
    else []
  let minimized :=
    if hasFlag states Qt.WindowMinimized then
      [Effect.set_minimized,
       Effect.handleWindowStatesChanged (states &&& flagsNot Qt.WindowMinimized)]
    else []
  (t, maximized ++ fullscreen ++ minimized)

/-- Method `Popup::applyConfigure()`: empty body. -/
def Popup.applyConfigure (p : Popup) : Popup × List Effect := (p, [])

/-! ## `QWaylandXdgSurface` -/

/-- Modelled from the spec: the default member initialisers of the class declaration
(`qwaylandxdgshell_p.h`): no role, not configured, no buffered expose region, pending
configure serial 0 ("0 = none outstanding", "false until the first configure/ack cycle
completes"). -/
def QWaylandXdgSurface.new : QWaylandXdgSurface :=
  { m_toplevel := none, m_popup := none, m_configured := false,
    m_exposeRegion := QRegion.empty, m_pendingConfigureSerial := 0 }

/-- Method `QWaylandXdgSurface::handleExpose(region)`: the new object and the returned flag. -/
def QWaylandXdgSurface.handleExpose (s : QWaylandXdgSurface) (region : QRegion) :
    QWaylandXdgSurface × Bool :=
  if !s.m_configured && !(QRegion.isEmpty region) then
    ({ s with m_exposeRegion := region }, true)
  else (s, false)

/-- Method `QWaylandXdgSurface::applyConfigure()`. -/
def QWaylandXdgSurface.applyConfigure (s : QWaylandXdgSurface) (frameSize : QSize) :
    Outcome QWaylandXdgSurface :=
  if s.m_pendingConfigureSerial = 0 then Outcome.assertFailed []
  else
    let top : Option Toplevel × List Effect :=
      match s.m_toplevel with
      | some t => (some (t.applyConfigure frameSize).1, (t.applyConfigure frameSize).2)
      | none => (none, [])
    let pop : Option Popup × List Effect :=
      match s.m_popup with
      | some p => (some p.applyConfigure.1, p.applyConfigure.2)
      | none => (none, [])
    Outcome.done
      { s with m_toplevel := top.1, m_popup := pop.1, m_configured := true,
               m_pendingConfigureSerial := 0 }
      (top.2 ++ pop.2 ++ [Effect.ack_configure s.m_pendingConfigureSerial])

/-- Method `QWaylandXdgSurface::wantsDecorations()`. -/
def QWaylandXdgSurface.wantsDecorations (s : QWaylandXdgSurface) : Bool :=
  match s.m_toplevel with
  | some t => !(hasFlag t.m_pending.states Qt.WindowFullScreen)
  | none => false

/-- Method `QWaylandXdgSurface::requestWindowStates(states)`. -/
def QWaylandXdgSurface.requestWindowStates (s : QWaylandXdgSurface) (states : WindowStates) :
    QWaylandXdgSurface × List Effect :=
  match s.m_toplevel with
  | some t =>
    ({ s with m_toplevel := some (t.requestWindowStates states).1 },
     (t.requestWindowStates states).2)
  | none => (s, [Effect.warning])

/-- Event handler `QWaylandXdgSurface::xdg_surface_configure(serial)`. -/
def QWaylandXdgSurface.xdg_surface_configure (s : QWaylandXdgSurface) (serial : Nat) :
    QWaylandXdgSurface × List Effect :=
  if !(QRegion.isEmpty s.m_exposeRegion) then
    ({ s with m_pendingConfigureSerial := serial, m_exposeRegion := QRegion.empty },
     [Effect.applyConfigureWhenPossible, Effect.handleExposeEvent s.m_exposeRegion])
  else
    ({ s with m_pendingConfigureSerial := serial }, [Effect.applyConfigureWhenPossible])

/-- A run of surface configure events, in order: the final object and all calls made. -/
def QWaylandXdgSurface.configureAll (s : QWaylandXdgSurface) :
    List Nat → QWaylandXdgSurface × List Effect
  | [] => (s, [])
  | serial :: rest =>
    let r := (s.xdg_surface_configure serial).1.configureAll rest
    (r.1, (s.xdg_surface_configure serial).2 ++ r.2)

/-! ## Environment: windows, display, input devices -/

/-- Qt window type `Qt::WindowType`, an `int` enumeration. -/
abbrev WindowType := Nat

namespace Qt

/-- Value `Qt::Window` = 0x1. -/
abbrev Window : WindowType := 1
/-- Value `Qt::Dialog` = 0x2 | Window. -/
abbrev Dialog : WindowType := 3
/-- Value `Qt::Popup` = 0x8 | Window. -/
abbrev Popup : WindowType := 9
/-- Value `Qt::ToolTip` = Popup | Sheet = 0xd. -/
abbrev ToolTip : WindowType := 13

end Qt

/-- Qt `QMargins`. -/
structure QMargins where
  left : Int
  top : Int
  right : Int
  bottom : Int
  deriving DecidableEq

/-- What this file reads from a `QWaylandInputDevice`: `wl_seat()` and `serial()`. -/
structure QWaylandInputDevice where
  wl_seat : Nat
  serial : Nat
  deriving DecidableEq

/-- What this file reads from a `QWaylandDisplay`: `lastInputDevice()` (a pointer, `none`
when null) and `lastInputSerial()` (a `uint32_t`). -/
structure QWaylandDisplay where
  lastInputDevice : Option QWaylandInputDevice
  lastInputSerial : Nat
  deriving DecidableEq

/-- What this file reads from a `QWaylandWindow`: `geometry()`,
`window()->windowStates()`, `decoration()` (a pointer, `none` when null) with its
`margins()`, and `shellSurface()` (a pointer, `none` when null). -/
structure QWaylandWindow where
  geometry : QRect
  windowStates : WindowStates
  decoration : Option QMargins
  shellSurface : Option QWaylandXdgSurface
  deriving DecidableEq

/-- Value of an `int` expression, wrapped to 32 bit two's complement. -/
def wrapInt32 (x : Int) : Int := (x + 2 ^ 31) % 2 ^ 32 - 2 ^ 31

/-- Range of `int`. -/
def InInt32 (x : Int) : Prop := -(2 ^ 31) ≤ x ∧ x < 2 ^ 31

instance (x : Int) : Decidable (InInt32 x) := inferInstanceAs (Decidable (_ ∧ _))

/-- Conversion of a `uint32_t` to `int` (argument `serial` of `setPopup`). -/
def uint32ToInt (n : Nat) : Int :=
  if n % 2 ^ 32 < 2 ^ 31 then ((n % 2 ^ 32 : Nat) : Int) else ((n % 2 ^ 32 : Nat) : Int) - 2 ^ 32

/-- Conversion of an `int` to `uint32_t` (argument `serial` of `xdg_popup::grab`). -/
def intToUInt32 (i : Int) : Nat := (i % 2 ^ 32).toNat

/-- Enumerator `xdg_positioner::anchor_top_left` of the generated protocol header. -/
abbrev anchor_top_left : Nat := 5

/-- Enumerator `xdg_positioner::gravity_bottom_right` of the generated protocol header. -/
abbrev gravity_bottom_right : Nat := 8

/-! ## Construction and destruction of the roles -/

/-- Modelled from the spec: the default member initialisers of `Toplevel` (class
declaration in `qwaylandxdgshell_p.h`): both snapshots start with no flags ("defaulting to
normal") and a zero size, and no normal size is remembered (`QSize()`). -/
def Toplevel.new (proxy : Option Nat) : Toplevel :=
  { m_pending := { size := ⟨0, 0⟩, states := Qt.WindowNoState },
    m_applied := { size := ⟨0, 0⟩, states := Qt.WindowNoState },
    m_normalSize := ⟨-1, -1⟩, object := proxy }

/-- Constructor `Toplevel::Toplevel(xdgSurface)`; `proxy` is what `get_toplevel()` returns
and `windowStates` what `xdgSurface->window()->window()->windowStates()` returns. -/
def Toplevel.create (proxy : Option Nat) (windowStates : WindowStates) :
    Toplevel × List Effect :=
  (((Toplevel.new proxy).requestWindowStates windowStates).1,
   Effect.get_toplevel :: ((Toplevel.new proxy).requestWindowStates windowStates).2)

/-- Destructor `Toplevel::~Toplevel()`. -/
def Toplevel.destructor (t : Toplevel) : List Effect :=
  (if hasFlag t.m_applied.states Qt.WindowActive then [Effect.handleWindowDeactivated] else []) ++
  (if t.object.isSome then [Effect.toplevel_destroy] else [])

/-- Constructor `Popup::Popup(xdgSurface, parent, positioner)`; `proxy` is what
`get_popup(...)` returns. Argument `parent->object()` is read through `parent`, the
shell surface of the parent window, which the caller passes unchecked. -/
def Popup.create (proxy : Option Nat) (parent : Option QWaylandXdgSurface) :
    Outcome Popup :=
  match parent with
  | none => Outcome.nullDeref []
  | some _ => Outcome.done { object := proxy } [Effect.get_popup]

/-- Destructor `Popup::~Popup()`. -/
def Popup.destructor (p : Popup) : List Effect :=
  if p.object.isSome then [Effect.popup_destroy] else []

/-- Event handler `Toplevel::xdg_toplevel_close()`. -/
def Toplevel.xdg_toplevel_close (t : Toplevel) : Toplevel × List Effect :=
  (t, [Effect.window_close])

/-- Event handler `Popup::xdg_popup_popup_done()`. -/
def Popup.xdg_popup_popup_done (p : Popup) : Popup × List Effect :=
  (p, [Effect.window_close])

/-! ## `QWaylandXdgSurface`: roles, interactive requests, destruction -/

/-- Destructor `QWaylandXdgSurface::~QWaylandXdgSurface()`. The role pointers are plain
pointers (they are assigned from `new`); the body sends the destroy requests itself and
contains no `delete`, so no role destructor runs. -/
def QWaylandXdgSurface.destructor (s : QWaylandXdgSurface) : List Effect :=
  (if s.m_toplevel.isSome then [Effect.toplevel_destroy] else []) ++
  (if s.m_popup.isSome then [Effect.popup_destroy] else []) ++
  [Effect.surface_destroy]

/-- Predicate `m_toplevel && m_toplevel->isInitialized()`. -/
def QWaylandXdgSurface.hasInitializedToplevel (s : QWaylandXdgSurface) : Bool :=
  match s.m_toplevel with
  | some t => t.object.isSome
  | none => false

/-- Method `QWaylandXdgSurface::resize(inputDevice, edges)`. -/
def QWaylandXdgSurface.resize (s : QWaylandXdgSurface) (inputDevice : QWaylandInputDevice)
    (edges : Nat) : Outcome QWaylandXdgSurface :=
  if s.hasInitializedToplevel then
    Outcome.done s [Effect.toplevel_resize inputDevice.wl_seat inputDevice.serial edges]
  else Outcome.assertFailed []

/-- Method `QWaylandXdgSurface::move(inputDevice)`: the object, the returned flag and the
calls made. -/
def QWaylandXdgSurface.move (s : QWaylandXdgSurface) (inputDevice : QWaylandInputDevice) :
    QWaylandXdgSurface × Bool × List Effect :=
  if s.hasInitializedToplevel then
    (s, true, [Effect.toplevel_move inputDevice.wl_seat inputDevice.serial])
  else (s, false, [])

/-- Method `QWaylandXdgSurface::setTitle(title)`. -/
def QWaylandXdgSurface.setTitle (s : QWaylandXdgSurface) (title : String) :
    QWaylandXdgSurface × List Effect :=
  if s.m_toplevel.isSome then (s, [Effect.set_title title]) else (s, [])

/-- Method `QWaylandXdgSurface::setAppId(appId)`. -/
def QWaylandXdgSurface.setAppId (s : QWaylandXdgSurface) (appId : String) :
    QWaylandXdgSurface × List Effect :=
  if s.m_toplevel.isSome then (s, [Effect.set_app_id appId]) else (s, [])

/-- Method `QWaylandXdgSurface::setToplevel()`; `window` is `m_window`, `proxy` what
`get_toplevel()` returns. -/
def QWaylandXdgSurface.setToplevel (s : QWaylandXdgSurface) (window : QWaylandWindow)
    (proxy : Option Nat) : Outcome QWaylandXdgSurface :=
  if s.m_toplevel.isSome || s.m_popup.isSome then Outcome.assertFailed []
  else
    Outcome.done { s with m_toplevel := some (Toplevel.create proxy window.windowStates).1 }
      (Toplevel.create proxy window.windowStates).2

/-- Position computed by `setPopup`: the window's top left corner relative to the parent,
shifted by the parent's decoration margins when the parent is decorated. -/
def transientPos (window parent : QWaylandWindow) : Int × Int :=
  let x0 := wrapInt32 (window.geometry.x - parent.geometry.x)
  let y0 := wrapInt32 (window.geometry.y - parent.geometry.y)
  match parent.decoration with
  | some margins => (wrapInt32 (x0 + margins.left), wrapInt32 (y0 + margins.top))
  | none => (x0, y0)

/-- Method `QWaylandXdgSurface::setPopup(parent, device, serial, grab)`; `window` is
`m_window`, `proxy` what `get_popup(...)` returns. -/
def QWaylandXdgSurface.setPopup (s : QWaylandXdgSurface) (window : QWaylandWindow)
    (proxy : Option Nat) (parent : QWaylandWindow) (device : QWaylandInputDevice)
    (serial : Int) (grab : Bool) : Outcome QWaylandXdgSurface :=
  if s.m_toplevel.isSome || s.m_popup.isSome then Outcome.assertFailed []
  else
    let positioner : List Effect :=
      [Effect.create_positioner,
       Effect.set_anchor_rect (transientPos window parent).1 (transientPos window parent).2 1 1,
       Effect.set_anchor anchor_top_left,
       Effect.set_gravity gravity_bottom_right,
       Effect.set_size window.geometry.width window.geometry.height]
    match Popup.create proxy parent.shellSurface with
    | Outcome.done popup tr =>
      Outcome.done { s with m_popup := some popup }
        (positioner ++ tr ++ [Effect.positioner_destroy] ++
          (if grab then [Effect.popup_grab device.wl_seat (intToUInt32 serial)] else []))
    | Outcome.assertFailed tr => Outcome.assertFailed (positioner ++ tr)
    | Outcome.nullDeref tr => Outcome.nullDeref (positioner ++ tr)

/-- Method `QWaylandXdgSurface::setType(type, transientParent)`; `window` is `m_window`,
`display` is `m_window->display()`, `proxy` the proxy of the role that gets created. -/
def QWaylandXdgSurface.setType (s : QWaylandXdgSurface) (window : QWaylandWindow)
    (display : QWaylandDisplay) (proxy : Option Nat) (type : WindowType)
    (transientParent : Option QWaylandWindow) : Outcome QWaylandXdgSurface :=
  match decide (type = Qt.Popup ∨ type = Qt.ToolTip), transientParent,
      display.lastInputDevice with
  | true, some parent, some device =>
    s.setPopup window proxy parent device (uint32ToInt display.lastInputSerial)
      (decide (type = Qt.Popup))
  | _, _, _ =>
    match s.setToplevel window proxy with
    | Outcome.done s1 tr =>
      match transientParent with
      | none => Outcome.done s1 tr
      | some parent =>
        match parent.shellSurface with
        | none => Outcome.done s1 tr
        | some parentXdgSurface =>
          match parentXdgSurface.m_toplevel with
          | none => Outcome.nullDeref tr
          | some parentToplevel => Outcome.done s1 (tr ++ [Effect.set_parent parentToplevel.object])
    | Outcome.assertFailed tr => Outcome.assertFailed tr
    | Outcome.nullDeref tr => Outcome.nullDeref tr

/-! ## `QWaylandXdgShell` -/

/-- Class `QWaylandXdgShell`: the bound `xdg_wm_base` global with its version. -/
structure QWaylandXdgShell where
  version : Nat
  deriving DecidableEq

/-- Event handler `QWaylandXdgShell::xdg_wm_base_ping(serial)`. -/
def QWaylandXdgShell.xdg_wm_base_ping (shell : QWaylandXdgShell) (serial : Nat) :
    QWaylandXdgShell × List Effect :=
  (shell, [Effect.pong serial])

/-! ## Sequences of operations on a shell surface -/

/-- Operations on a shell surface, with the values each one reads from its environment. -/
inductive SurfaceOp where
  | setToplevel (window : QWaylandWindow) (proxy : Option Nat)
  | setPopup (window : QWaylandWindow) (proxy : Option Nat) (parent : QWaylandWindow)
      (device : QWaylandInputDevice) (serial : Int) (grab : Bool)
  | setType (window : QWaylandWindow) (display : QWaylandDisplay) (proxy : Option Nat)
      (type : WindowType) (transientParent : Option QWaylandWindow)
  | surfaceConfigure (serial : Nat)
  | toplevelConfigure (codes : XdgToplevelStateCodes) (width height : Int) (states : List Nat)
  | applyConfigure (frameSize : QSize)
  | handleExpose (region : QRegion)
  | requestWindowStates (states : WindowStates)
  | setTitle (title : String)
  | setAppId (appId : String)
  | move (inputDevice : QWaylandInputDevice)

/-- One operation. A toplevel configure event is delivered to the `Toplevel` object; without
one there is nothing to deliver it to. -/
def QWaylandXdgSurface.step (s : QWaylandXdgSurface) : SurfaceOp → Outcome QWaylandXdgSurface
  | .setToplevel window proxy => s.setToplevel window proxy
  | .setPopup window proxy parent device serial grab =>
    s.setPopup window proxy parent device serial grab
  | .setType window display proxy type transientParent =>
    s.setType window display proxy type transientParent
  | .surfaceConfigure serial =>
    Outcome.done (s.xdg_surface_configure serial).1 (s.xdg_surface_configure serial).2
  | .toplevelConfigure codes width height states =>
    Outcome.done
      { s with m_toplevel :=
          s.m_toplevel.map (fun t => t.xdg_toplevel_configure codes width height states) } []
  | .applyConfigure frameSize => s.applyConfigure frameSize
  | .handleExpose region => Outcome.done (s.handleExpose region).1 []
  | .requestWindowStates states =>
    Outcome.done (s.requestWindowStates states).1 (s.requestWindowStates states).2
  | .setTitle title => Outcome.done (s.setTitle title).1 (s.setTitle title).2
  | .setAppId appId => Outcome.done (s.setAppId appId).1 (s.setAppId appId).2
  | .move inputDevice => Outcome.done (s.move inputDevice).1 (s.move inputDevice).2.2

/-- A sequence of operations, stopping at the first one that aborts. -/
def QWaylandXdgSurface.run (s : QWaylandXdgSurface) : List SurfaceOp → Outcome QWaylandXdgSurface
  | [] => Outcome.done s []
  | op :: ops =>
    match s.step op with
    | Outcome.done s1 tr1 =>
      match s1.run ops with
      | Outcome.done s2 tr2 => Outcome.done s2 (tr1 ++ tr2)
      | Outcome.assertFailed tr2 => Outcome.assertFailed (tr1 ++ tr2)
      | Outcome.nullDeref tr2 => Outcome.nullDeref (tr1 ++ tr2)
    | Outcome.assertFailed tr1 => Outcome.assertFailed tr1
    | Outcome.nullDeref tr1 => Outcome.nullDeref tr1

/-- Some role is attached. -/
def QWaylandXdgSurface.hasRole (s : QWaylandXdgSurface) : Bool :=
  s.m_toplevel.isSome || s.m_popup.isSome

/-- The operation is a surface configure event. -/
def SurfaceOp.isSurfaceConfigure : SurfaceOp → Bool
  | .surfaceConfigure _ => true
  | _ => false

/-- The operation, done in state `s`, is a `handleExpose` call that is suppressed (it
returns true and buffers its region). -/
def QWaylandXdgSurface.suppresses (s : QWaylandXdgSurface) : SurfaceOp → Bool
  | .handleExpose region => (s.handleExpose region).2
  | _ => false

/-- Some `handleExpose` call in the run of `ops` from state `s` is suppressed. -/
def QWaylandXdgSurface.suppressesIn (s : QWaylandXdgSurface) : List SurfaceOp → Bool
  | [] => false
  | op :: ops =>
    s.suppresses op ||
      (match s.step op with
        | Outcome.done s1 _ => s1.suppressesIn ops
        | Outcome.assertFailed _ => false
        | Outcome.nullDeref _ => false)

/-! ## Sequences of operations on a toplevel -/

/-- Operations on a `Toplevel` after its construction: a toplevel configure event, an
`applyConfigure()` call, a `requestWindowStates(states)` call. -/
inductive ToplevelOp where
  | configure (width height : Int) (states : List Nat)
  | applyConfigure (frameSize : QSize)
  | requestWindowStates (states : WindowStates)

/-- One operation on a toplevel: the new object and the calls made. -/
def Toplevel.step (c : XdgToplevelStateCodes) (t : Toplevel) :
    ToplevelOp → Toplevel × List Effect
  | .configure width height states => (t.xdg_toplevel_configure c width height states, [])
  | .applyConfigure frameSize => t.applyConfigure frameSize
  | .requestWindowStates states => t.requestWindowStates states

/-- A sequence of operations on a toplevel, in order. -/
def Toplevel.run (c : XdgToplevelStateCodes) (t : Toplevel) :
    List ToplevelOp → Toplevel × List Effect
  | [] => (t, [])
  | op :: ops =>
    (((t.step c op).1.run c ops).1, (t.step c op).2 ++ ((t.step c op).1.run c ops).2)

/-- Every flag of `states` is a flag of `mask`. -/
def flagsSubset (states mask : WindowStates) : Prop := states &&& mask = states

instance (states mask : WindowStates) : Decidable (flagsSubset states mask) :=
  inferInstanceAs (Decidable (states &&& mask = states))

/-! ## Observations on traces -/

/-- Predicate: the call is an `ack_configure` request. -/
def Effect.isAck : Effect → Bool
  | .ack_configure _ => true
  | _ => false

/-- Argument of a `resizeFromApplyConfigure` call, if the call is one. -/
def Effect.resizeArg : Effect → Option QSize
  | .resizeFromApplyConfigure size => some size
  | _ => none

/-- Region of a `handleExposeEvent` call, if the call is one. -/
def Effect.exposeArg : Effect → Option QRegion
  | .handleExposeEvent region => some region
  | _ => none

/-- Argument of a `handleWindowStatesChanged` call, if the call is one. -/
def Effect.statesChangedArg : Effect → Option WindowStates
  | .handleWindowStatesChanged states => some states
  | _ => none

/-! ## Bit-level facts about flags -/

theorem hasFlag_two_pow (s i : Nat) : hasFlag s (2 ^ i) = s.testBit i := by
  unfold hasFlag
  cases h : s.testBit i
  · have : s &&& 2 ^ i = 0 := by
      apply Nat.eq_of_testBit_eq
      intro j
      simp only [Nat.testBit_and, Nat.testBit_two_pow, Nat.zero_testBit]
      by_cases hj : i = j
      · subst hj; simp [h]
      · simp [hj]
    simp [this]
  · have : (s &&& 2 ^ i).testBit i = true := by
      simp [Nat.testBit_and, Nat.testBit_two_pow, h]
    have hne : s &&& 2 ^ i ≠ 0 := by
      intro h0
      rw [h0] at this
      simp at this
    simpa using hne

theorem hasFlag_minimized (s : Nat) : hasFlag s Qt.WindowMinimized = s.testBit 0 :=
  hasFlag_two_pow s 0

theorem hasFlag_maximized (s : Nat) : hasFlag s Qt.WindowMaximized = s.testBit 1 :=
  hasFlag_two_pow s 1

theorem hasFlag_fullscreen (s : Nat) : hasFlag s Qt.WindowFullScreen = s.testBit 2 :=
  hasFlag_two_pow s 2

theorem lor_eq_zero_iff (x y : Nat) : x ||| y = 0 ↔ x = 0 ∧ y = 0 := by
  constructor
  · intro h
    have hb : ∀ i, (x.testBit i || y.testBit i) = false := by
      intro i
      rw [← Nat.testBit_or, h, Nat.zero_testBit]
    constructor
    · apply Nat.eq_of_testBit_eq
      intro i
      have := hb i
      rw [Bool.or_eq_false_iff] at this
      rw [this.1, Nat.zero_testBit]
    · apply Nat.eq_of_testBit_eq
      intro i
      have := hb i
      rw [Bool.or_eq_false_iff] at this
      rw [this.2, Nat.zero_testBit]
  · rintro ⟨rfl, rfl⟩
    rfl

theorem hasFlag_or (s a b : Nat) : hasFlag s (a ||| b) = (hasFlag s a || hasFlag s b) := by
  unfold hasFlag
  rw [Nat.and_or_distrib_left]
  rw [Bool.eq_iff_iff]
  simp only [bne_iff_ne, ne_eq, Bool.or_eq_true, lor_eq_zero_iff]
  tauto

/-! ## Facts about runs of configure events -/

theorem xdg_surface_configure_serial (s : QWaylandXdgSurface) (serial : Nat) :
    (s.xdg_surface_configure serial).1.m_pendingConfigureSerial = serial := by
  unfold QWaylandXdgSurface.xdg_surface_configure
  split <;> rfl

theorem xdg_surface_configure_roles (s : QWaylandXdgSurface) (serial : Nat) :
    (s.xdg_surface_configure serial).1.m_toplevel = s.m_toplevel ∧
    (s.xdg_surface_configure serial).1.m_popup = s.m_popup ∧
    (s.xdg_surface_configure serial).1.m_configured = s.m_configured := by
  unfold QWaylandXdgSurface.xdg_surface_configure
  split <;> exact ⟨rfl, rfl, rfl⟩

theorem configureAll_roles (serials : List Nat) (s : QWaylandXdgSurface) :
    (s.configureAll serials).1.m_toplevel = s.m_toplevel ∧
    (s.configureAll serials).1.m_popup = s.m_popup ∧
    (s.configureAll serials).1.m_configured = s.m_configured := by
  induction serials generalizing s with
  | nil => exact ⟨rfl, rfl, rfl⟩
  | cons serial rest ih =>
    have h := xdg_surface_configure_roles s serial
    have h2 := ih (s.xdg_surface_configure serial).1
    simp only [QWaylandXdgSurface.configureAll]
    exact ⟨h2.1.trans h.1, h2.2.1.trans h.2.1, h2.2.2.trans h.2.2⟩

theorem configureAll_serial (serials : List Nat) (hne : serials ≠ []) (s : QWaylandXdgSurface) :
    (s.configureAll serials).1.m_pendingConfigureSerial = serials.getLast hne := by
  induction serials generalizing s with
  | nil => exact absurd rfl hne
  | cons serial rest ih =>
    cases rest with
    | nil =>
      simp only [QWaylandXdgSurface.configureAll, List.getLast_singleton]
      exact xdg_surface_configure_serial s serial
    | cons serial2 rest2 =>
      have h := ih (List.cons_ne_nil serial2 rest2) (s.xdg_surface_configure serial).1
      rw [List.getLast_cons (List.cons_ne_nil serial2 rest2)]
      rw [← h]
      rfl

theorem toplevel_applyConfigure_no_ack (t : Toplevel) (frameSize : QSize) :
    (t.applyConfigure frameSize).2.countP Effect.isAck = 0 := by
  unfold Toplevel.applyConfigure
  simp only [List.countP_append]
  split <;> split <;> simp [Effect.isAck, List.countP_cons]

theorem configureAll_no_expose (serials : List Nat) (s : QWaylandXdgSurface)
    (h : QRegion.isEmpty s.m_exposeRegion = true) :
    (s.configureAll serials).2.filterMap Effect.exposeArg = [] ∧
    QRegion.isEmpty (s.configureAll serials).1.m_exposeRegion = true := by
  induction serials generalizing s with
  | nil => exact ⟨rfl, h⟩
  | cons serial rest ih =>
    have hstep : s.xdg_surface_configure serial =
        ({ s with m_pendingConfigureSerial := serial }, [Effect.applyConfigureWhenPossible]) := by
      simp [QWaylandXdgSurface.xdg_surface_configure, h]
    have h2 := ih (s.xdg_surface_configure serial).1 (by rw [hstep]; exact h)
    simp only [QWaylandXdgSurface.configureAll, List.filterMap_append, h2.1, List.append_nil]
    refine ⟨?_, h2.2⟩
    rw [hstep]
    rfl

/-! ## Decoding the state array -/

theorem foldl_decodeState (c : XdgToplevelStateCodes) (hd : c.Distinct) (codes : List Nat)
    (acc : WindowStates) :
    codes.foldl (decodeState c) acc =
      acc ||| ((if c.activated ∈ codes then Qt.WindowActive else 0) |||
        ((if c.maximized ∈ codes then Qt.WindowMaximized else 0) |||
          (if c.fullscreen ∈ codes then Qt.WindowFullScreen else 0))) := by
  obtain ⟨ham, haf, hmf⟩ := hd
  induction codes generalizing acc with
  | nil => simp
  | cons x xs ih =>
    rw [List.foldl_cons, ih]
    apply Nat.eq_of_testBit_eq
    intro i
    unfold decodeState
    by_cases hxa : x = c.activated
    · have hma : ¬ c.maximized = x := fun h => ham (hxa.symm.trans h.symm)
      have hfa : ¬ c.fullscreen = x := fun h => haf (hxa.symm.trans h.symm)
      simp only [if_pos hxa, List.mem_cons, hxa.symm, true_or, if_true, hma, hfa, false_or,
        Nat.testBit_or]
      split_ifs <;> simp [Bool.or_assoc, Bool.or_comm, Bool.or_left_comm]
    · by_cases hxm : x = c.maximized
      · have hax : ¬ c.activated = x := fun h => hxa h.symm
        have hfm : ¬ c.fullscreen = x := fun h => hmf (hxm.symm.trans h.symm)
        simp only [if_neg hxa, if_pos hxm, List.mem_cons, hxm.symm, true_or, if_true, hax, hfm,
          false_or, Nat.testBit_or]
        split_ifs <;> simp [Bool.or_assoc, Bool.or_comm, Bool.or_left_comm]
      · by_cases hxf : x = c.fullscreen
        · have hax : ¬ c.activated = x := fun h => hxa h.symm
          have hmx : ¬ c.maximized = x := fun h => hxm h.symm
          simp only [if_neg hxa, if_neg hxm, if_pos hxf, List.mem_cons, hxf.symm, true_or,
            if_true, hax, hmx, false_or, Nat.testBit_or]
          split_ifs <;> simp [Bool.or_assoc, Bool.or_comm, Bool.or_left_comm]
        · have hax : ¬ c.activated = x := fun h => hxa h.symm
          have hmx : ¬ c.maximized = x := fun h => hxm h.symm
          have hfx : ¬ c.fullscreen = x := fun h => hxf h.symm
          simp only [if_neg hxa, if_neg hxm, if_neg hxf, List.mem_cons, hax, hmx, hfx,
            false_or]

/-! ## Theorems for the claims -/

/-- C1: after any non-empty run of surface configure events whose last serial is not 0,
`applyConfigure()` runs to the end; the calls it makes are those of the attached role's
`applyConfigure` followed by one `ack_configure` carrying the last serial received, no
other `ack_configure` occurs, the role is the one updated by its own `applyConfigure`,
and afterwards `m_configured` is true and the pending serial is 0. -/
theorem applyConfigure_acks_last_serial (s : QWaylandXdgSurface) (frameSize : QSize)
    (serials : List Nat) (hne : serials ≠ []) (hlast : serials.getLast hne ≠ 0) :
    ∃ s2 roleTrace,
      (s.configureAll serials).1.applyConfigure frameSize
        = Outcome.done s2 (roleTrace ++ [Effect.ack_configure (serials.getLast hne)]) ∧
      roleTrace =
        (match s.m_toplevel with
          | some t => (t.applyConfigure frameSize).2
          | none => []) ++
        (match s.m_popup with
          | some p => p.applyConfigure.2
          | none => []) ∧
      (roleTrace ++ [Effect.ack_configure (serials.getLast hne)]).countP Effect.isAck = 1 ∧
      s2.m_toplevel = s.m_toplevel.map (fun t => (t.applyConfigure frameSize).1) ∧
      s2.m_popup = s.m_popup ∧
      s2.m_configured = true ∧
      s2.m_pendingConfigureSerial = 0 := by
  have hser := configureAll_serial serials hne s
  obtain ⟨htop, hpop, _⟩ := configureAll_roles serials s
  have hne0 : (s.configureAll serials).1.m_pendingConfigureSerial ≠ 0 := by
    rw [hser]; exact hlast
  unfold QWaylandXdgSurface.applyConfigure
  rw [if_neg hne0, hser, htop, hpop]
  refine ⟨_, _, rfl, ?_, ?_, ?_, ?_, rfl, rfl⟩
  · cases s.m_toplevel <;> cases s.m_popup <;> rfl
  · cases s.m_toplevel <;> cases s.m_popup <;>
      simp [List.countP_append, Effect.isAck, Popup.applyConfigure,
        toplevel_applyConfigure_no_ack, List.countP_cons]
  · cases s.m_toplevel <;> rfl
  · cases s.m_popup <;> rfl

/-- Witness for C1: a fresh surface receiving serials 7, 0, 9 acknowledges 9. -/
theorem applyConfigure_acks_last_serial_witness :
    ∃ s2 roleTrace,
      (QWaylandXdgSurface.new.configureAll [7, 0, 9]).1.applyConfigure ⟨800, 600⟩
        = Outcome.done s2 (roleTrace ++
            [Effect.ack_configure ([7, 0, 9].getLast (by decide))]) ∧
      roleTrace =
        (match QWaylandXdgSurface.new.m_toplevel with
          | some t => (t.applyConfigure ⟨800, 600⟩).2
          | none => []) ++
        (match QWaylandXdgSurface.new.m_popup with
          | some p => p.applyConfigure.2
          | none => []) ∧
      (roleTrace ++ [Effect.ack_configure ([7, 0, 9].getLast (by decide))]).countP
        Effect.isAck = 1 ∧
      s2.m_toplevel =
        QWaylandXdgSurface.new.m_toplevel.map (fun t => (t.applyConfigure ⟨800, 600⟩).1) ∧
      s2.m_popup = QWaylandXdgSurface.new.m_popup ∧
      s2.m_configured = true ∧
      s2.m_pendingConfigureSerial = 0 :=
  applyConfigure_acks_last_serial QWaylandXdgSurface.new ⟨800, 600⟩ [7, 0, 9]
    (by decide) (by decide)

/-- C2: `applyConfigure()` hits its `Q_ASSERT` exactly when the pending configure serial is
0, and then it has made no call at all (so no `ack_configure`); a completed
`applyConfigure()` is always followed by a failing one when no configure event comes in
between, in particular after a single configure event with a non-zero serial; and a
freshly constructed surface fails. -/
theorem applyConfigure_fails_iff_no_pending_serial (s : QWaylandXdgSurface)
    (frameSize frameSize2 : QSize) (serial : Nat) :
    ((s.applyConfigure frameSize).failed = true ↔ s.m_pendingConfigureSerial = 0) ∧
    (s.m_pendingConfigureSerial = 0 →
      s.applyConfigure frameSize = Outcome.assertFailed []) ∧
    (∀ s2 tr, s.applyConfigure frameSize = Outcome.done s2 tr →
      s2.applyConfigure frameSize2 = Outcome.assertFailed []) ∧
    (serial ≠ 0 →
      ∃ s2 tr,
        (s.xdg_surface_configure serial).1.applyConfigure frameSize = Outcome.done s2 tr ∧
        tr.countP Effect.isAck = 1 ∧
        s2.applyConfigure frameSize2 = Outcome.assertFailed []) ∧
    QWaylandXdgSurface.new.applyConfigure frameSize = Outcome.assertFailed [] := by
  refine ⟨?_, ?_, ?_, ?_, rfl⟩
  · unfold QWaylandXdgSurface.applyConfigure
    by_cases h : s.m_pendingConfigureSerial = 0
    · simp [h, Outcome.failed]
    · simp [h, Outcome.failed]
  · intro h
    unfold QWaylandXdgSurface.applyConfigure
    rw [if_pos h]
  · intro s2 tr h
    unfold QWaylandXdgSurface.applyConfigure at h
    by_cases h0 : s.m_pendingConfigureSerial = 0
    · rw [if_pos h0] at h
      cases h
    · rw [if_neg h0] at h
      injection h with hs _
      subst hs
      rfl
  · intro hserial
    have hne0 : (s.xdg_surface_configure serial).1.m_pendingConfigureSerial ≠ 0 := by
      rw [xdg_surface_configure_serial]; exact hserial
    unfold QWaylandXdgSurface.applyConfigure
    rw [if_neg hne0]
    refine ⟨_, _, rfl, ?_, rfl⟩
    cases (s.xdg_surface_configure serial).1.m_toplevel <;>
      cases (s.xdg_surface_configure serial).1.m_popup <;>
      simp [List.countP_append, Effect.isAck, Popup.applyConfigure,
        toplevel_applyConfigure_no_ack, List.countP_cons]

/-- Witness for C2: a toplevel surface receives configure serial 5; the first
`applyConfigure()` completes with one ack, the second one fails. -/
theorem applyConfigure_fails_iff_no_pending_serial_witness :
    (5 : Nat) ≠ 0 ∧
    ∃ s2 tr,
      ({ QWaylandXdgSurface.new with
          m_toplevel := some
            { m_pending := { size := ⟨0, 0⟩, states := Qt.WindowActive },
              m_applied := { size := ⟨0, 0⟩, states := Qt.WindowNoState },
              m_normalSize := ⟨0, 0⟩, object := some 1 } }.xdg_surface_configure
        5).1.applyConfigure ⟨800, 600⟩ = Outcome.done s2 tr ∧
      tr.countP Effect.isAck = 1 ∧
      s2.applyConfigure ⟨640, 480⟩ = Outcome.assertFailed [] :=
  ⟨by decide,
   (applyConfigure_fails_iff_no_pending_serial _ ⟨800, 600⟩ ⟨640, 480⟩ 5).2.2.2.1
     (by decide)⟩

/-- C3: `xdg_toplevel_configure(width, height, states)` sets `m_pending.size` to
`(width, height)` and `m_pending.states` to exactly Active (if the ACTIVATED code occurs in
the array) | Maximized (if MAXIMIZED occurs) | FullScreen (if FULLSCREEN occurs); other
codes add nothing, an array with the same members (any order, any repetition) gives the
same result, the previous pending state plays no role, and `m_applied` and the remembered
normal size are left as they were. -/
theorem xdg_toplevel_configure_decodes (c : XdgToplevelStateCodes) (hd : c.Distinct)
    (t : Toplevel) (width height : Int) (codes : List Nat) :
    (t.xdg_toplevel_configure c width height codes).m_pending.size = ⟨width, height⟩ ∧
    (t.xdg_toplevel_configure c width height codes).m_pending.states =
      ((if c.activated ∈ codes then Qt.WindowActive else 0) |||
        ((if c.maximized ∈ codes then Qt.WindowMaximized else 0) |||
          (if c.fullscreen ∈ codes then Qt.WindowFullScreen else 0))) ∧
    (∀ codes2 : List Nat, (∀ code, code ∈ codes2 ↔ code ∈ codes) →
      (t.xdg_toplevel_configure c width height codes2).m_pending =
        (t.xdg_toplevel_configure c width height codes).m_pending) ∧
    (∀ t2 : Toplevel,
      (t2.xdg_toplevel_configure c width height codes).m_pending =
        (t.xdg_toplevel_configure c width height codes).m_pending) ∧
    (t.xdg_toplevel_configure c width height codes).m_applied = t.m_applied ∧
    (t.xdg_toplevel_configure c width height codes).m_normalSize = t.m_normalSize := by
  refine ⟨rfl, ?_, ?_, fun _ => rfl, rfl, rfl⟩
  · show codes.foldl (decodeState c) Qt.WindowNoState = _
    rw [foldl_decodeState c hd]
    simp
  · intro codes2 hmem
    show ToplevelState.mk _ (codes2.foldl (decodeState c) Qt.WindowNoState) =
      ToplevelState.mk _ (codes.foldl (decodeState c) Qt.WindowNoState)
    rw [foldl_decodeState c hd, foldl_decodeState c hd]
    simp only [hmem]

/-- Witness for C3: with the protocol's codes, the array [4, 3, 1, 4, 99] on a toplevel
whose pending state was FullScreen decodes to Active | Maximized. -/
theorem xdg_toplevel_configure_decodes_witness :
    xdgShellCodes.Distinct ∧
    (Toplevel.xdg_toplevel_configure xdgShellCodes
      { m_pending := { size := ⟨10, 10⟩, states := Qt.WindowFullScreen },
        m_applied := { size := ⟨10, 10⟩, states := Qt.WindowFullScreen },
        m_normalSize := ⟨10, 10⟩, object := some 1 }
      1024 768 [4, 3, 1, 4, 99]).m_pending.size = ⟨1024, 768⟩ ∧
    (Toplevel.xdg_toplevel_configure xdgShellCodes
      { m_pending := { size := ⟨10, 10⟩, states := Qt.WindowFullScreen },
        m_applied := { size := ⟨10, 10⟩, states := Qt.WindowFullScreen },
        m_normalSize := ⟨10, 10⟩, object := some 1 }
      1024 768 [4, 3, 1, 4, 99]).m_pending.states = Qt.WindowActive ||| Qt.WindowMaximized :=
  ⟨by decide,
   (xdg_toplevel_configure_decodes xdgShellCodes (by decide) _ 1024 768 [4, 3, 1, 4, 99]).1,
   (xdg_toplevel_configure_decodes xdgShellCodes (by decide) _ 1024 768
      [4, 3, 1, 4, 99]).2.1.trans (by decide)⟩

/-- C4: `Toplevel::applyConfigure()` calls `handleWindowActivated` exactly once and
`handleWindowDeactivated` not at all when pending has Active and applied has not; it calls
`handleWindowDeactivated` exactly once and `handleWindowActivated` not at all when applied
has Active and pending has not; it calls neither when the two agree on Active. A second
`applyConfigure()` directly after the first calls neither. -/
theorem toplevel_applyConfigure_activation_edges (t : Toplevel) (frameSize frameSize2 : QSize) :
    (hasFlag t.m_pending.states Qt.WindowActive = true →
      hasFlag t.m_applied.states Qt.WindowActive = false →
      (t.applyConfigure frameSize).2.count Effect.handleWindowActivated = 1 ∧
      (t.applyConfigure frameSize).2.count Effect.handleWindowDeactivated = 0) ∧
    (hasFlag t.m_pending.states Qt.WindowActive = false →
      hasFlag t.m_applied.states Qt.WindowActive = true →
      (t.applyConfigure frameSize).2.count Effect.handleWindowActivated = 0 ∧
      (t.applyConfigure frameSize).2.count Effect.handleWindowDeactivated = 1) ∧
    (hasFlag t.m_pending.states Qt.WindowActive = hasFlag t.m_applied.states Qt.WindowActive →
      (t.applyConfigure frameSize).2.count Effect.handleWindowActivated = 0 ∧
      (t.applyConfigure frameSize).2.count Effect.handleWindowDeactivated = 0) ∧
    (((t.applyConfigure frameSize).1.applyConfigure frameSize2).2.count
        Effect.handleWindowActivated = 0 ∧
      ((t.applyConfigure frameSize).1.applyConfigure frameSize2).2.count
        Effect.handleWindowDeactivated = 0) := by
  refine ⟨?_, ?_, ?_, ?_⟩
  · intro hp ha
    simp [Toplevel.applyConfigure, hp, ha, List.count_cons]
  · intro hp ha
    simp [Toplevel.applyConfigure, hp, ha, List.count_cons]
  · intro h
    cases ha : hasFlag t.m_applied.states Qt.WindowActive <;>
      simp [Toplevel.applyConfigure, h, ha, List.count_cons]
  · cases hp : hasFlag t.m_pending.states Qt.WindowActive <;>
      simp [Toplevel.applyConfigure, hp, List.count_cons]

/-- Witness for C4: pending Active | Maximized against applied Maximized is an activation
edge; the trace holds one `handleWindowActivated` and no `handleWindowDeactivated`. -/
theorem toplevel_applyConfigure_activation_edges_witness :
    hasFlag (Qt.WindowActive ||| Qt.WindowMaximized) Qt.WindowActive = true ∧
    hasFlag Qt.WindowMaximized Qt.WindowActive = false ∧
    (Toplevel.applyConfigure
      { m_pending := { size := ⟨1920, 1080⟩, states := Qt.WindowActive ||| Qt.WindowMaximized },
        m_applied := { size := ⟨1920, 1080⟩, states := Qt.WindowMaximized },
        m_normalSize := ⟨800, 600⟩, object := some 1 }
      ⟨1920, 1080⟩).2.count Effect.handleWindowActivated = 1 ∧
    (Toplevel.applyConfigure
      { m_pending := { size := ⟨1920, 1080⟩, states := Qt.WindowActive ||| Qt.WindowMaximized },
        m_applied := { size := ⟨1920, 1080⟩, states := Qt.WindowMaximized },
        m_normalSize := ⟨800, 600⟩, object := some 1 }
      ⟨1920, 1080⟩).2.count Effect.handleWindowDeactivated = 0 :=
  ⟨by decide, by decide,
   (toplevel_applyConfigure_activation_edges
      { m_pending := { size := ⟨1920, 1080⟩, states := Qt.WindowActive ||| Qt.WindowMaximized },
        m_applied := { size := ⟨1920, 1080⟩, states := Qt.WindowMaximized },
        m_normalSize := ⟨800, 600⟩, object := some 1 }
      ⟨1920, 1080⟩ ⟨1920, 1080⟩).1 (by decide) (by decide)⟩

/-- C5: `Toplevel::applyConfigure()` keeps the remembered normal size when the applied
state has Maximized or FullScreen and overwrites it with the window frame size when it has
neither; whenever the pending size is empty and the remembered normal size (after that
step) is not, the one `resizeFromApplyConfigure` call carries the remembered normal size.
Scenario: from a normal applied state with non-empty frame size `frame0`, a configure
(w, h, [MAXIMIZED]) that is applied, followed by a configure (0, 0, []) that is applied,
ends with `resizeFromApplyConfigure(frame0)`, whatever the frame size is by then. -/
theorem toplevel_applyConfigure_normal_size (c : XdgToplevelStateCodes) (t : Toplevel)
    (frameSize frame0 frame1 : QSize) (w h : Int) :
    ((hasFlag t.m_applied.states Qt.WindowMaximized = true ∨
        hasFlag t.m_applied.states Qt.WindowFullScreen = true) →
      (t.applyConfigure frameSize).1.m_normalSize = t.m_normalSize) ∧
    (hasFlag t.m_applied.states Qt.WindowMaximized = false →
      hasFlag t.m_applied.states Qt.WindowFullScreen = false →
      (t.applyConfigure frameSize).1.m_normalSize = frameSize) ∧
    (t.m_pending.size.isEmpty = true →
      (t.applyConfigure frameSize).1.m_normalSize.isEmpty = false →
      (t.applyConfigure frameSize).2.filterMap Effect.resizeArg =
        [(t.applyConfigure frameSize).1.m_normalSize]) ∧
    (c.Distinct →
      hasFlag t.m_applied.states Qt.WindowMaximized = false →
      hasFlag t.m_applied.states Qt.WindowFullScreen = false →
      frame0.isEmpty = false →
      ((((t.xdg_toplevel_configure c w h [c.maximized]).applyConfigure
          frame0).1.xdg_toplevel_configure c 0 0 []).applyConfigure
          frame1).2.filterMap Effect.resizeArg = [frame0]) := by
  refine ⟨?_, ?_, ?_, ?_⟩
  · intro hmf
    have : hasFlag t.m_applied.states (Qt.WindowMaximized ||| Qt.WindowFullScreen) = true := by
      rw [hasFlag_or]
      rcases hmf with h | h <;> simp [h]
    simp [Toplevel.applyConfigure, this]
  · intro hm hf
    have : hasFlag t.m_applied.states (Qt.WindowMaximized ||| Qt.WindowFullScreen) = false := by
      rw [hasFlag_or, hm, hf]
      rfl
    simp [Toplevel.applyConfigure, this]
  · intro hp hn
    simp only [Toplevel.applyConfigure] at hn ⊢
    simp only [hp, hn, Bool.true_and, Bool.not_false, if_true]
    split <;> split <;> simp [Effect.resizeArg, List.filterMap_cons]
  · intro hd hm hf h0
    have hnone : hasFlag t.m_applied.states (Qt.WindowMaximized ||| Qt.WindowFullScreen)
        = false := by
      rw [hasFlag_or, hm, hf]
      rfl
    have hdec : [c.maximized].foldl (decodeState c) Qt.WindowNoState = Qt.WindowMaximized := by
      rw [foldl_decodeState c hd]
      have h1 : ¬ c.activated = c.maximized := hd.1
      have h2 : ¬ c.fullscreen = c.maximized := fun h => hd.2.2 h.symm
      simp [h1, h2]
    have hmax : hasFlag Qt.WindowMaximized (Qt.WindowMaximized ||| Qt.WindowFullScreen)
        = true := by decide
    have hempty : QSize.isEmpty ⟨0, 0⟩ = true := by decide
    simp only [Toplevel.xdg_toplevel_configure, Toplevel.applyConfigure, hdec, hnone, hmax,
      hempty, h0, List.foldl_nil, Bool.not_false, Bool.not_true, Bool.true_and, if_true]
    split <;> split <;> simp [Effect.resizeArg, List.filterMap_cons, h0]

/-- Witness for C5: a normal 800 x 600 window is maximized to 1920 x 1080 and then
restored with an empty size: the last resize carries (800, 600). -/
theorem toplevel_applyConfigure_normal_size_witness :
    xdgShellCodes.Distinct ∧
    hasFlag Qt.WindowActive Qt.WindowMaximized = false ∧
    hasFlag Qt.WindowActive Qt.WindowFullScreen = false ∧
    QSize.isEmpty ⟨800, 600⟩ = false ∧
    ((((Toplevel.xdg_toplevel_configure xdgShellCodes
          { m_pending := { size := ⟨0, 0⟩, states := Qt.WindowActive },
            m_applied := { size := ⟨0, 0⟩, states := Qt.WindowActive },
            m_normalSize := ⟨0, 0⟩, object := some 1 }
          1920 1080 [xdgShellCodes.maximized]).applyConfigure
        ⟨800, 600⟩).1.xdg_toplevel_configure xdgShellCodes 0 0 []).applyConfigure
        ⟨1920, 1080⟩).2.filterMap Effect.resizeArg = [⟨800, 600⟩] :=
  ⟨by decide, by decide, by decide, by decide,
   (toplevel_applyConfigure_normal_size xdgShellCodes
      { m_pending := { size := ⟨0, 0⟩, states := Qt.WindowActive },
        m_applied := { size := ⟨0, 0⟩, states := Qt.WindowActive },
        m_normalSize := ⟨0, 0⟩, object := some 1 }
      ⟨800, 600⟩ ⟨800, 600⟩ ⟨1920, 1080⟩ 1920 1080).2.2.2
      (by decide) (by decide) (by decide) (by decide)⟩

/-- C6: with applied flag set A, `Toplevel::requestWindowStates(S)` sends `set_maximized`
iff Maximized is in S and not in A, `unset_maximized` iff Maximized is in A and not in S,
`set_fullscreen` iff FullScreen is in S and not in A, `unset_fullscreen` iff FullScreen is
in A and not in S; two toplevels with the same applied flags send the same calls whatever
their pending state is; and when S and A agree on Maximized and on FullScreen and S has no
Minimized, nothing at all is sent. -/
theorem requestWindowStates_diff_applied (t : Toplevel) (S : WindowStates) :
    (Effect.set_maximized ∈ (t.requestWindowStates S).2 ↔
      hasFlag S Qt.WindowMaximized = true ∧
        hasFlag t.m_applied.states Qt.WindowMaximized = false) ∧
    (Effect.unset_maximized ∈ (t.requestWindowStates S).2 ↔
      hasFlag t.m_applied.states Qt.WindowMaximized = true ∧
        hasFlag S Qt.WindowMaximized = false) ∧
    (Effect.set_fullscreen ∈ (t.requestWindowStates S).2 ↔
      hasFlag S Qt.WindowFullScreen = true ∧
        hasFlag t.m_applied.states Qt.WindowFullScreen = false) ∧
    (Effect.unset_fullscreen ∈ (t.requestWindowStates S).2 ↔
      hasFlag t.m_applied.states Qt.WindowFullScreen = true ∧
        hasFlag S Qt.WindowFullScreen = false) ∧
    (∀ t2 : Toplevel, t2.m_applied.states = t.m_applied.states →
      (t2.requestWindowStates S).2 = (t.requestWindowStates S).2) ∧
    (hasFlag S Qt.WindowMaximized = hasFlag t.m_applied.states Qt.WindowMaximized →
      hasFlag S Qt.WindowFullScreen = hasFlag t.m_applied.states Qt.WindowFullScreen →
      hasFlag S Qt.WindowMinimized = false →
      (t.requestWindowStates S).2 = []) := by
  refine ⟨?_, ?_, ?_, ?_, ?_, ?_⟩
  · simp only [Toplevel.requestWindowStates, hasFlag_maximized, hasFlag_fullscreen,
      hasFlag_minimized, Nat.testBit_xor]
    cases S.testBit 0 <;> cases S.testBit 1 <;> cases S.testBit 2 <;>
      cases t.m_applied.states.testBit 1 <;> cases t.m_applied.states.testBit 2 <;> simp
  · simp only [Toplevel.requestWindowStates, hasFlag_maximized, hasFlag_fullscreen,
      hasFlag_minimized, Nat.testBit_xor]
    cases S.testBit 0 <;> cases S.testBit 1 <;> cases S.testBit 2 <;>
      cases t.m_applied.states.testBit 1 <;> cases t.m_applied.states.testBit 2 <;> simp
  · simp only [Toplevel.requestWindowStates, hasFlag_maximized, hasFlag_fullscreen,
      hasFlag_minimized, Nat.testBit_xor]
    cases S.testBit 0 <;> cases S.testBit 1 <;> cases S.testBit 2 <;>
      cases t.m_applied.states.testBit 1 <;> cases t.m_applied.states.testBit 2 <;> simp
  · simp only [Toplevel.requestWindowStates, hasFlag_maximized, hasFlag_fullscreen,
      hasFlag_minimized, Nat.testBit_xor]
    cases S.testBit 0 <;> cases S.testBit 1 <;> cases S.testBit 2 <;>
      cases t.m_applied.states.testBit 1 <;> cases t.m_applied.states.testBit 2 <;> simp
  · intro t2 h
    simp only [Toplevel.requestWindowStates, h]
  · intro hm hf hmin
    simp only [Toplevel.requestWindowStates, hasFlag_maximized, hasFlag_fullscreen,
      hasFlag_minimized, Nat.testBit_xor] at hm hf hmin ⊢
    simp [hm, hf, hmin]

/-- Witness for C6: applied Active | Maximized and request Active | Maximized: the two
agree on Maximized and FullScreen and Minimized is not requested, so nothing is sent. -/
theorem requestWindowStates_diff_applied_witness :
    hasFlag 10 Qt.WindowMaximized = hasFlag 10 Qt.WindowMaximized ∧
    hasFlag 10 Qt.WindowFullScreen = hasFlag 10 Qt.WindowFullScreen ∧
    hasFlag 10 Qt.WindowMinimized = false ∧
    (Toplevel.requestWindowStates
      { m_pending := { size := ⟨0, 0⟩, states := Qt.WindowFullScreen },
        m_applied := { size := ⟨1920, 1080⟩, states := 10 },
        m_normalSize := ⟨800, 600⟩, object := some 1 } 10).2 = [] :=
  ⟨rfl, rfl, by decide,
   (requestWindowStates_diff_applied
      { m_pending := { size := ⟨0, 0⟩, states := Qt.WindowFullScreen },
        m_applied := { size := ⟨1920, 1080⟩, states := 10 },
        m_normalSize := ⟨800, 600⟩, object := some 1 } 10).2.2.2.2.2 rfl rfl (by decide)⟩

/-- C7: for every flag set S over the closed vocabulary and every toplevel,
`requestWindowStates(S)`, then a toplevel configure whose code array echoes S (it holds
the ACTIVATED, MAXIMIZED, FULLSCREEN code exactly when S has Active, Maximized,
FullScreen; any other codes, any size), then `applyConfigure()` leaves
`m_applied.states` equal to S without Minimized. -/
theorem request_configure_apply_roundtrip (c : XdgToplevelStateCodes) (hd : c.Distinct)
    (t : Toplevel) (S : WindowStates) (hS : IsWindowStates S) (codes : List Nat)
    (hA : c.activated ∈ codes ↔ hasFlag S Qt.WindowActive = true)
    (hM : c.maximized ∈ codes ↔ hasFlag S Qt.WindowMaximized = true)
    (hF : c.fullscreen ∈ codes ↔ hasFlag S Qt.WindowFullScreen = true)
    (width height : Int) (frameSize : QSize) :
    ((((t.requestWindowStates S).1.xdg_toplevel_configure c width height codes).applyConfigure
        frameSize).1.m_applied.states = S &&& flagsNot Qt.WindowMinimized) := by
  show codes.foldl (decodeState c) Qt.WindowNoState = _
  rw [foldl_decodeState c hd]
  simp only [hA, hM, hF]
  have h16 : S < 16 := hS
  interval_cases S <;> decide

/-- Witness for C7: S = Minimized | Maximized | Active (11) echoed as [4, 1] ends with
applied flags Maximized | Active (10). -/
theorem request_configure_apply_roundtrip_witness :
    xdgShellCodes.Distinct ∧ IsWindowStates 11 ∧
    ((((Toplevel.requestWindowStates
          { m_pending := { size := ⟨0, 0⟩, states := Qt.WindowFullScreen },
            m_applied := { size := ⟨0, 0⟩, states := Qt.WindowFullScreen },
            m_normalSize := ⟨800, 600⟩, object := some 1 }
          11).1.xdg_toplevel_configure xdgShellCodes 1920 1080 [4, 1]).applyConfigure
        ⟨1920, 1080⟩).1.m_applied.states = 10) :=
  ⟨by decide, by decide,
   (request_configure_apply_roundtrip xdgShellCodes (by decide)
      { m_pending := { size := ⟨0, 0⟩, states := Qt.WindowFullScreen },
        m_applied := { size := ⟨0, 0⟩, states := Qt.WindowFullScreen },
        m_normalSize := ⟨800, 600⟩, object := some 1 }
      11 (by decide) [4, 1] (by decide) (by decide) (by decide) 1920 1080
      ⟨1920, 1080⟩).trans (by decide)⟩

/-- C8: `wantsDecorations()` is true iff a Toplevel role is attached whose pending flags
lack FullScreen; it is false without a role and false with only a Popup role; changing the
applied state of the toplevel never changes the answer: pending FullScreen with applied
NoState gives false, pending NoState with applied FullScreen gives true. -/
theorem wantsDecorations_iff (s : QWaylandXdgSurface) (t : Toplevel) (p : Popup)
    (applied : ToplevelState) :
    (s.wantsDecorations = true ↔
      ∃ top, s.m_toplevel = some top ∧
        hasFlag top.m_pending.states Qt.WindowFullScreen = false) ∧
    QWaylandXdgSurface.wantsDecorations { s with m_toplevel := none, m_popup := none }
      = false ∧
    QWaylandXdgSurface.wantsDecorations { s with m_toplevel := none, m_popup := some p }
      = false ∧
    QWaylandXdgSurface.wantsDecorations
        { s with m_toplevel := some { t with m_applied := applied } } =
      QWaylandXdgSurface.wantsDecorations { s with m_toplevel := some t } ∧
    QWaylandXdgSurface.wantsDecorations
      { s with
        m_toplevel := some { t with
          m_pending := { size := t.m_pending.size, states := Qt.WindowFullScreen },
          m_applied := { size := t.m_applied.size, states := Qt.WindowNoState } } }
      = false ∧
    QWaylandXdgSurface.wantsDecorations
      { s with
        m_toplevel := some { t with
          m_pending := { size := t.m_pending.size, states := Qt.WindowNoState },
          m_applied := { size := t.m_applied.size, states := Qt.WindowFullScreen } } }
      = true := by
  refine ⟨?_, rfl, rfl, rfl, ?_, ?_⟩
  · unfold QWaylandXdgSurface.wantsDecorations
    cases h : s.m_toplevel with
    | none => simp
    | some top => simp
  · have h : hasFlag Qt.WindowFullScreen Qt.WindowFullScreen = true := by decide
    simp [QWaylandXdgSurface.wantsDecorations, h]
  · have h : hasFlag Qt.WindowNoState Qt.WindowFullScreen = false := by decide
    simp [QWaylandXdgSurface.wantsDecorations, h]

/-- C9: `handleExpose(region)` returns true and stores `region` in `m_exposeRegion`
exactly when the surface is not configured and `region` is not empty; otherwise it returns
false and leaves `m_exposeRegion` as it was. In both cases the configured flag, the pending
serial and both role pointers are unchanged. -/
theorem handleExpose_suppresses_iff (s : QWaylandXdgSurface) (region : QRegion) :
    ((s.handleExpose region).2 = true ↔
      (s.m_configured = false ∧ QRegion.isEmpty region = false)) ∧
    ((s.handleExpose region).2 = true →
      (s.handleExpose region).1.m_exposeRegion = region) ∧
    ((s.handleExpose region).2 = false →
      (s.handleExpose region).1.m_exposeRegion = s.m_exposeRegion) ∧
    (s.handleExpose region).1.m_configured = s.m_configured ∧
    (s.handleExpose region).1.m_pendingConfigureSerial = s.m_pendingConfigureSerial ∧
    (s.handleExpose region).1.m_toplevel = s.m_toplevel ∧
    (s.handleExpose region).1.m_popup = s.m_popup := by
  unfold QWaylandXdgSurface.handleExpose
  cases hc : s.m_configured <;> cases hr : QRegion.isEmpty region <;> simp [hc]

/-- Witness for C9: on a fresh surface a one-rectangle region is suppressed and stored. -/
theorem handleExpose_suppresses_iff_witness :
    (QWaylandXdgSurface.new.handleExpose [⟨0, 0, 800, 600⟩]).2 = true ∧
    (QWaylandXdgSurface.new.handleExpose [⟨0, 0, 800, 600⟩]).1.m_exposeRegion
      = [⟨0, 0, 800, 600⟩] :=
  ⟨by decide,
   (handleExpose_suppresses_iff QWaylandXdgSurface.new [⟨0, 0, 800, 600⟩]).2.1 (by decide)⟩

/-! ## Facts about role attachment -/

theorem handleExpose_roles (s : QWaylandXdgSurface) (region : QRegion) :
    (s.handleExpose region).1.m_toplevel = s.m_toplevel ∧
    (s.handleExpose region).1.m_popup = s.m_popup := by
  unfold QWaylandXdgSurface.handleExpose
  split <;> exact ⟨rfl, rfl⟩

theorem setToplevel_done (s s2 : QWaylandXdgSurface) (window : QWaylandWindow)
    (proxy : Option Nat) (tr : List Effect)
    (h : s.setToplevel window proxy = Outcome.done s2 tr) :
    s.hasRole = false ∧ s2.m_toplevel.isSome = true ∧ s2.m_popup = none := by
  unfold QWaylandXdgSurface.setToplevel at h
  by_cases hr : (s.m_toplevel.isSome || s.m_popup.isSome) = true
  · rw [if_pos hr] at h
    cases h
  · rw [if_neg hr] at h
    injection h with hs _
    subst hs
    have hr2 : (s.m_toplevel.isSome || s.m_popup.isSome) = false := by simpa using hr
    refine ⟨hr2, rfl, ?_⟩
    rw [Bool.or_eq_false_iff] at hr2
    cases hp : s.m_popup with
    | none => rfl
    | some p => rw [hp] at hr2; simp at hr2

theorem setPopup_done (s s2 : QWaylandXdgSurface) (window : QWaylandWindow)
    (proxy : Option Nat) (parent : QWaylandWindow) (device : QWaylandInputDevice)
    (serial : Int) (grab : Bool) (tr : List Effect)
    (h : s.setPopup window proxy parent device serial grab = Outcome.done s2 tr) :
    s.hasRole = false ∧ s2.m_popup.isSome = true ∧ s2.m_toplevel = none := by
  unfold QWaylandXdgSurface.setPopup at h
  by_cases hr : (s.m_toplevel.isSome || s.m_popup.isSome) = true
  · rw [if_pos hr] at h
    cases h
  · rw [if_neg hr] at h
    have hr2 : (s.m_toplevel.isSome || s.m_popup.isSome) = false := by simpa using hr
    cases hps : parent.shellSurface with
    | none => simp [hps, Popup.create] at h
    | some ps =>
      simp only [hps, Popup.create] at h
      injection h with hs _
      subst hs
      refine ⟨hr2, rfl, ?_⟩
      rw [Bool.or_eq_false_iff] at hr2
      cases ht : s.m_toplevel with
      | none => rfl
      | some t => rw [ht] at hr2; simp at hr2

theorem setType_done (s s2 : QWaylandXdgSurface) (window : QWaylandWindow)
    (display : QWaylandDisplay) (proxy : Option Nat) (type : WindowType)
    (transientParent : Option QWaylandWindow) (tr : List Effect)
    (h : s.setType window display proxy type transientParent = Outcome.done s2 tr) :
    s.hasRole = false ∧ (s2.m_toplevel.isSome && s2.m_popup.isSome) = false := by
  unfold QWaylandXdgSurface.setType at h
  split at h
  · obtain ⟨h1, _, h3⟩ := setPopup_done _ _ _ _ _ _ _ _ _ h
    exact ⟨h1, by rw [h3]; rfl⟩
  · split at h
    · rename_i s1 tr1 hst
      obtain ⟨h1, _, h3⟩ := setToplevel_done _ _ _ _ _ hst
      have hs : s2 = s1 := by
        split at h
        · injection h with hs _; exact hs.symm
        · split at h
          · injection h with hs _; exact hs.symm
          · split at h
            · cases h
            · injection h with hs _; exact hs.symm
      subst hs
      exact ⟨h1, by rw [h3]; simp⟩
    · cases h
    · cases h

theorem step_roles (s s2 : QWaylandXdgSurface) (op : SurfaceOp) (tr : List Effect)
    (h : s.step op = Outcome.done s2 tr) :
    (s2.m_toplevel.map Toplevel.object = s.m_toplevel.map Toplevel.object ∧
      s2.m_popup = s.m_popup) ∨
    (s.hasRole = false ∧ (s2.m_toplevel.isSome && s2.m_popup.isSome) = false) := by
  cases op with
  | setToplevel window proxy =>
    obtain ⟨h1, _, h3⟩ := setToplevel_done _ _ _ _ _ h
    exact Or.inr ⟨h1, by rw [h3]; simp⟩
  | setPopup window proxy parent device serial grab =>
    obtain ⟨h1, _, h3⟩ := setPopup_done _ _ _ _ _ _ _ _ _ h
    exact Or.inr ⟨h1, by rw [h3]; rfl⟩
  | setType window display proxy type transientParent =>
    exact Or.inr (setType_done _ _ _ _ _ _ _ _ h)
  | surfaceConfigure serial =>
    simp only [QWaylandXdgSurface.step] at h
    injection h with hs _
    subst hs
    obtain ⟨h1, h2, _⟩ := xdg_surface_configure_roles s serial
    exact Or.inl ⟨by rw [h1], h2⟩
  | toplevelConfigure codes width height states =>
    simp only [QWaylandXdgSurface.step] at h
    injection h with hs _
    subst hs
    refine Or.inl ⟨?_, rfl⟩
    cases s.m_toplevel <;> rfl
  | applyConfigure frameSize =>
    simp only [QWaylandXdgSurface.step, QWaylandXdgSurface.applyConfigure] at h
    by_cases h0 : s.m_pendingConfigureSerial = 0
    · rw [if_pos h0] at h
      cases h
    · rw [if_neg h0] at h
      injection h with hs _
      subst hs
      refine Or.inl ⟨?_, ?_⟩
      · cases s.m_toplevel <;> rfl
      · cases s.m_popup <;> rfl
  | handleExpose region =>
    simp only [QWaylandXdgSurface.step] at h
    injection h with hs _
    subst hs
    obtain ⟨h1, h2⟩ := handleExpose_roles s region
    exact Or.inl ⟨by rw [h1], h2⟩
  | requestWindowStates states =>
    simp only [QWaylandXdgSurface.step] at h
    injection h with hs _
    subst hs
    unfold QWaylandXdgSurface.requestWindowStates
    split
    · rename_i t ht
      exact Or.inl ⟨by rw [ht]; rfl, rfl⟩
    · exact Or.inl ⟨rfl, rfl⟩
  | setTitle title =>
    simp only [QWaylandXdgSurface.step] at h
    injection h with hs _
    subst hs
    unfold QWaylandXdgSurface.setTitle
    split <;> exact Or.inl ⟨rfl, rfl⟩
  | setAppId appId =>
    simp only [QWaylandXdgSurface.step] at h
    injection h with hs _
    subst hs
    unfold QWaylandXdgSurface.setAppId
    split <;> exact Or.inl ⟨rfl, rfl⟩
  | move inputDevice =>
    simp only [QWaylandXdgSurface.step] at h
    injection h with hs _
    subst hs
    unfold QWaylandXdgSurface.move
    split <;> exact Or.inl ⟨rfl, rfl⟩

theorem run_roles (ops : List SurfaceOp) (s s2 : QWaylandXdgSurface) (tr : List Effect)
    (hinv : (s.m_toplevel.isSome && s.m_popup.isSome) = false)
    (h : s.run ops = Outcome.done s2 tr) :
    (s2.m_toplevel.isSome && s2.m_popup.isSome) = false := by
  induction ops generalizing s tr with
  | nil =>
    simp only [QWaylandXdgSurface.run] at h
    injection h with hs _
    subst hs
    exact hinv
  | cons op ops ih =>
    simp only [QWaylandXdgSurface.run] at h
    split at h
    · rename_i s1 tr1 hstep
      split at h
      · rename_i s3 tr3 hrun
        injection h with hs _
        subst hs
        refine ih s1 tr3 ?_ hrun
        rcases step_roles s s1 op tr1 hstep with ⟨h1, h2⟩ | ⟨_, h2⟩
        · have : s1.m_toplevel.isSome = s.m_toplevel.isSome := by
            have := congrArg Option.isSome h1
            simpa using this
          rw [this, h2]
          exact hinv
        · exact h2
      · cases h
      · cases h
    · cases h
    · cases h

/-- C11: in every state reached from a freshly constructed surface by any sequence of
completed operations (setToplevel, setPopup, setType, surface and toplevel configure
events, applyConfigure, handleExpose, requestWindowStates, setTitle, setAppId, move) at
most one of the two role pointers is set; in any state with a role attached `setToplevel`
and `setPopup` fail their assertion, and every operation that completes leaves the popup
role as it is and the toplevel role with the same protocol object (it neither removes nor
replaces a role). -/
theorem role_exclusivity_invariant (ops : List SurfaceOp) (s : QWaylandXdgSurface)
    (tr : List Effect) (hrun : QWaylandXdgSurface.new.run ops = Outcome.done s tr)
    (s1 : QWaylandXdgSurface) (hrole : s1.hasRole = true) :
    (s.m_toplevel.isSome && s.m_popup.isSome) = false ∧
    (∀ window proxy, s1.setToplevel window proxy = Outcome.assertFailed []) ∧
    (∀ window proxy parent device serial grab,
      s1.setPopup window proxy parent device serial grab = Outcome.assertFailed []) ∧
    (∀ op s2 tr2, s1.step op = Outcome.done s2 tr2 →
      s2.m_toplevel.map Toplevel.object = s1.m_toplevel.map Toplevel.object ∧
      s2.m_popup = s1.m_popup) := by
  have hrole2 : (s1.m_toplevel.isSome || s1.m_popup.isSome) = true := hrole
  refine ⟨run_roles ops QWaylandXdgSurface.new s tr rfl hrun, ?_, ?_, ?_⟩
  · intro window proxy
    unfold QWaylandXdgSurface.setToplevel
    rw [if_pos hrole2]
  · intro window proxy parent device serial grab
    unfold QWaylandXdgSurface.setPopup
    rw [if_pos hrole2]
  · intro op s2 tr2 hstep
    rcases step_roles s1 s2 op tr2 hstep with h | ⟨h, _⟩
    · exact h
    · rw [hrole] at h
      cases h

/-- Witness for C11: a fresh surface made a toplevel and configured with serial 3 holds
one role; a surface with a popup role rejects `setToplevel`. -/
theorem role_exclusivity_invariant_witness :
    (QWaylandXdgSurface.new.run
        [SurfaceOp.setToplevel ⟨⟨0, 0, 800, 600⟩, Qt.WindowNoState, none, none⟩ (some 7),
         SurfaceOp.surfaceConfigure 3] =
      Outcome.done
        { QWaylandXdgSurface.new with
          m_toplevel := some (Toplevel.new (some 7)), m_pendingConfigureSerial := 3 }
        [Effect.get_toplevel, Effect.applyConfigureWhenPossible]) ∧
    QWaylandXdgSurface.hasRole
      { QWaylandXdgSurface.new with m_popup := some { object := some 2 } } = true ∧
    QWaylandXdgSurface.setToplevel
      { QWaylandXdgSurface.new with m_popup := some { object := some 2 } }
      ⟨⟨0, 0, 800, 600⟩, Qt.WindowNoState, none, none⟩ (some 8) = Outcome.assertFailed [] :=
  ⟨by decide, by decide,
   (role_exclusivity_invariant
      [SurfaceOp.setToplevel ⟨⟨0, 0, 800, 600⟩, Qt.WindowNoState, none, none⟩ (some 7),
       SurfaceOp.surfaceConfigure 3]
      { QWaylandXdgSurface.new with
        m_toplevel := some (Toplevel.new (some 7)), m_pendingConfigureSerial := 3 }
      [Effect.get_toplevel, Effect.applyConfigureWhenPossible] (by decide)
      { QWaylandXdgSurface.new with m_popup := some { object := some 2 } }
      (by decide)).2.1 ⟨⟨0, 0, 800, 600⟩, Qt.WindowNoState, none, none⟩ (some 8)⟩

/-- C12 (the code departs from the claim): the destructor of `QWaylandXdgSurface` never
calls `handleWindowDeactivated`; for a surface whose toplevel has applied state Active it
sends `xdg_toplevel.destroy` and `xdg_surface.destroy` only, whereas the destructor of the
`Toplevel` in the same state would have made the deactivation call first. -/
theorem surface_destructor_makes_no_deactivation :
    (∀ s : QWaylandXdgSurface, s.destructor.count Effect.handleWindowDeactivated = 0) ∧
    QWaylandXdgSurface.destructor
      { QWaylandXdgSurface.new with
        m_toplevel := some { Toplevel.new (some 1) with
          m_applied := { size := ⟨800, 600⟩, states := Qt.WindowActive } } }
      = [Effect.toplevel_destroy, Effect.surface_destroy] ∧
    Toplevel.destructor
      { Toplevel.new (some 1) with
        m_applied := { size := ⟨800, 600⟩, states := Qt.WindowActive } }
      = [Effect.handleWindowDeactivated, Effect.toplevel_destroy] := by
  refine ⟨?_, by decide, by decide⟩
  intro s
  unfold QWaylandXdgSurface.destructor
  cases s.m_toplevel <;> cases s.m_popup <;> simp [List.count_cons]

/-- C13: the destructor of `Toplevel` calls `handleWindowDeactivated` exactly once when
the applied flags have Active and not at all otherwise; the call comes before the
`xdg_toplevel.destroy` request, which is sent when the object is initialized; the pending
state plays no role (pending Active with applied NoState gives no call). -/
theorem toplevel_destructor_deactivates (t : Toplevel) (pending : ToplevelState) :
    (hasFlag t.m_applied.states Qt.WindowActive = true →
      t.destructor.count Effect.handleWindowDeactivated = 1 ∧
      (t.object.isSome = true →
        t.destructor = [Effect.handleWindowDeactivated, Effect.toplevel_destroy]) ∧
      (t.object.isSome = false → t.destructor = [Effect.handleWindowDeactivated])) ∧
    (hasFlag t.m_applied.states Qt.WindowActive = false →
      t.destructor.count Effect.handleWindowDeactivated = 0) ∧
    Toplevel.destructor { t with m_pending := pending } = t.destructor ∧
    (Toplevel.destructor
      { t with m_pending := { size := t.m_pending.size, states := Qt.WindowActive },
               m_applied := { size := t.m_applied.size, states := Qt.WindowNoState } }).count
      Effect.handleWindowDeactivated = 0 := by
  refine ⟨?_, ?_, rfl, ?_⟩
  · intro ha
    unfold Toplevel.destructor
    rw [if_pos ha]
    refine ⟨?_, ?_, ?_⟩
    · cases t.object <;> simp [List.count_cons]
    · intro hi
      simp [hi]
    · intro hi
      simp [hi]
  · intro ha
    unfold Toplevel.destructor
    cases t.object <;> simp [ha, List.count_cons]
  · have h : hasFlag Qt.WindowNoState Qt.WindowActive = false := by decide
    unfold Toplevel.destructor
    cases t.object <;> simp [h, List.count_cons]

/-- Witness for C13: an initialized toplevel with applied Active | Maximized: one
deactivation call, then the destroy request. -/
theorem toplevel_destructor_deactivates_witness :
    hasFlag (Qt.WindowActive ||| Qt.WindowMaximized) Qt.WindowActive = true ∧
    Toplevel.destructor
      { m_pending := { size := ⟨0, 0⟩, states := Qt.WindowNoState },
        m_applied := { size := ⟨1920, 1080⟩, states := Qt.WindowActive ||| Qt.WindowMaximized },
        m_normalSize := ⟨800, 600⟩, object := some 1 }
      = [Effect.handleWindowDeactivated, Effect.toplevel_destroy] :=
  ⟨by decide,
   ((toplevel_destructor_deactivates
      { m_pending := { size := ⟨0, 0⟩, states := Qt.WindowNoState },
        m_applied := { size := ⟨1920, 1080⟩, states := Qt.WindowActive ||| Qt.WindowMaximized },
        m_normalSize := ⟨800, 600⟩, object := some 1 }
      { size := ⟨0, 0⟩, states := Qt.WindowNoState }).1 (by decide)).2.1 rfl⟩

/-- C14 (the code departs from the claim): `setType` in the toplevel branch with a
transient parent whose shell surface has no `Toplevel` (no role, or a popup role) creates
the toplevel and then reads `parentXdgSurface->m_toplevel->object()` through the null
`m_toplevel`: the run ends there instead of dropping the parent link. A parent without any
shell surface is skipped by the null check the code does have. -/
theorem setType_parent_without_toplevel_null_deref :
    QWaylandXdgSurface.setType QWaylandXdgSurface.new
      ⟨⟨150, 140, 400, 300⟩, Qt.WindowNoState, none, none⟩ ⟨none, 0⟩ (some 7) Qt.Dialog
      (some ⟨⟨100, 100, 300, 200⟩, Qt.WindowNoState, none, some QWaylandXdgSurface.new⟩)
      = Outcome.nullDeref [Effect.get_toplevel] ∧
    QWaylandXdgSurface.setType QWaylandXdgSurface.new
      ⟨⟨150, 140, 400, 300⟩, Qt.WindowNoState, none, none⟩ ⟨none, 0⟩ (some 7) Qt.Dialog
      (some ⟨⟨100, 100, 300, 200⟩, Qt.WindowNoState, none,
        some { QWaylandXdgSurface.new with m_popup := some { object := some 2 } }⟩)
      = Outcome.nullDeref [Effect.get_toplevel] ∧
    QWaylandXdgSurface.setType QWaylandXdgSurface.new
      ⟨⟨150, 140, 400, 300⟩, Qt.WindowNoState, none, none⟩ ⟨none, 0⟩ (some 7) Qt.Dialog
      (some ⟨⟨100, 100, 300, 200⟩, Qt.WindowNoState, none, none⟩)
      = Outcome.done
          { QWaylandXdgSurface.new with m_toplevel := some (Toplevel.new (some 7)) }
          [Effect.get_toplevel] := by
  refine ⟨by decide, by decide, by decide⟩

/-- C15 (the code departs from the claim): `setType(Qt::Popup, parent)` with a known last
input device takes the popup branch, but when the parent window has no shell surface the
`Popup` constructor reads `parent->object()` through the null pointer: the run ends after
the positioner requests and no role is attached. With a parent that has a shell surface
the popup role is attached, with a grab carrying the last input serial for `Qt::Popup` and
without a grab for `Qt::ToolTip`; without a last input device the toplevel branch is
taken. -/
theorem setType_popup_parent_without_shell_surface :
    QWaylandXdgSurface.setType QWaylandXdgSurface.new
      ⟨⟨150, 140, 50, 50⟩, Qt.WindowNoState, none, none⟩ ⟨some ⟨5, 41⟩, 41⟩ (some 9) Qt.Popup
      (some ⟨⟨100, 100, 300, 200⟩, Qt.WindowNoState, none, none⟩)
      = Outcome.nullDeref
          [Effect.create_positioner, Effect.set_anchor_rect 50 40 1 1,
           Effect.set_anchor anchor_top_left, Effect.set_gravity gravity_bottom_right,
           Effect.set_size 50 50] ∧
    QWaylandXdgSurface.setType QWaylandXdgSurface.new
      ⟨⟨150, 140, 50, 50⟩, Qt.WindowNoState, none, none⟩ ⟨some ⟨5, 41⟩, 41⟩ (some 9) Qt.Popup
      (some ⟨⟨100, 100, 300, 200⟩, Qt.WindowNoState, none,
        some { QWaylandXdgSurface.new with m_toplevel := some (Toplevel.new (some 1)) }⟩)
      = Outcome.done
          { QWaylandXdgSurface.new with m_popup := some { object := some 9 } }
          [Effect.create_positioner, Effect.set_anchor_rect 50 40 1 1,
           Effect.set_anchor anchor_top_left, Effect.set_gravity gravity_bottom_right,
           Effect.set_size 50 50, Effect.get_popup, Effect.positioner_destroy,
           Effect.popup_grab 5 41] ∧
    QWaylandXdgSurface.setType QWaylandXdgSurface.new
      ⟨⟨150, 140, 50, 50⟩, Qt.WindowNoState, none, none⟩ ⟨some ⟨5, 41⟩, 41⟩ (some 9)
      Qt.ToolTip
      (some ⟨⟨100, 100, 300, 200⟩, Qt.WindowNoState, none,
        some { QWaylandXdgSurface.new with m_toplevel := some (Toplevel.new (some 1)) }⟩)
      = Outcome.done
          { QWaylandXdgSurface.new with m_popup := some { object := some 9 } }
          [Effect.create_positioner, Effect.set_anchor_rect 50 40 1 1,
           Effect.set_anchor anchor_top_left, Effect.set_gravity gravity_bottom_right,
           Effect.set_size 50 50, Effect.get_popup, Effect.positioner_destroy] ∧
    QWaylandXdgSurface.setType QWaylandXdgSurface.new
      ⟨⟨150, 140, 50, 50⟩, Qt.WindowNoState, none, none⟩ ⟨none, 41⟩ (some 9) Qt.Popup
      (some ⟨⟨100, 100, 300, 200⟩, Qt.WindowNoState, none,
        some { QWaylandXdgSurface.new with m_toplevel := some (Toplevel.new (some 1)) }⟩)
      = Outcome.done
          { QWaylandXdgSurface.new with m_toplevel := some (Toplevel.new (some 9)) }
          [Effect.get_toplevel, Effect.set_parent (some 1)] := by
  refine ⟨by decide, by decide, by decide, by decide⟩

theorem wrapInt32_of_inInt32 (x : Int) (h : InInt32 x) : wrapInt32 x = x := by
  unfold wrapInt32
  unfold InInt32 at h
  omega

theorem transientPos_exact (window parent : QWaylandWindow)
    (hx : InInt32 (window.geometry.x - parent.geometry.x))
    (hy : InInt32 (window.geometry.y - parent.geometry.y))
    (hdx : ∀ m, parent.decoration = some m →
      InInt32 (window.geometry.x - parent.geometry.x + m.left))
    (hdy : ∀ m, parent.decoration = some m →
      InInt32 (window.geometry.y - parent.geometry.y + m.top)) :
    transientPos window parent =
      (window.geometry.x - parent.geometry.x + (parent.decoration.map QMargins.left).getD 0,
       window.geometry.y - parent.geometry.y + (parent.decoration.map QMargins.top).getD 0) := by
  unfold transientPos
  cases hdec : parent.decoration with
  | none => simp [wrapInt32_of_inInt32 _ hx, wrapInt32_of_inInt32 _ hy]
  | some m =>
    simp [wrapInt32_of_inInt32 _ hx, wrapInt32_of_inInt32 _ hy,
      wrapInt32_of_inInt32 _ (hdx m hdec), wrapInt32_of_inInt32 _ (hdy m hdec)]

/-- C16: on a surface without a role, when the `int` subtractions and additions stay in
range, `setPopup` sends, in this order, `create_positioner`,
`set_anchor_rect(px-qx+dl, py-qy+dt, 1, 1)` with (dl, dt) the parent's decoration (left,
top) margins if the parent is decorated and (0, 0) otherwise, `set_anchor(top_left)`,
`set_gravity(bottom_right)` and `set_size(pw, ph)`; the `get_popup` request that creates
the popup role comes after them. -/
theorem setPopup_positioner_requests (s : QWaylandXdgSurface) (window parent : QWaylandWindow)
    (proxy : Option Nat) (device : QWaylandInputDevice) (serial : Int) (grab : Bool)
    (hrole : s.hasRole = false)
    (hx : InInt32 (window.geometry.x - parent.geometry.x))
    (hy : InInt32 (window.geometry.y - parent.geometry.y))
    (hdx : ∀ m, parent.decoration = some m →
      InInt32 (window.geometry.x - parent.geometry.x + m.left))
    (hdy : ∀ m, parent.decoration = some m →
      InInt32 (window.geometry.y - parent.geometry.y + m.top)) :
    (s.setPopup window proxy parent device serial grab).trace =
      [Effect.create_positioner,
       Effect.set_anchor_rect
         (window.geometry.x - parent.geometry.x + (parent.decoration.map QMargins.left).getD 0)
         (window.geometry.y - parent.geometry.y + (parent.decoration.map QMargins.top).getD 0)
         1 1,
       Effect.set_anchor anchor_top_left,
       Effect.set_gravity gravity_bottom_right,
       Effect.set_size window.geometry.width window.geometry.height] ++
      (match parent.shellSurface with
        | some _ =>
          Effect.get_popup :: Effect.positioner_destroy ::
            (if grab then [Effect.popup_grab device.wl_seat (intToUInt32 serial)] else [])
        | none => []) ∧
    ((s.setPopup window proxy parent device serial grab).state?.isSome =
      parent.shellSurface.isSome) := by
  have hrole2 : ¬ (s.m_toplevel.isSome || s.m_popup.isSome) = true := by
    have : (s.m_toplevel.isSome || s.m_popup.isSome) = false := hrole
    simp [this]
  unfold QWaylandXdgSurface.setPopup
  rw [if_neg hrole2, transientPos_exact window parent hx hy hdx hdy]
  cases parent.shellSurface with
  | none => simp [Popup.create, Outcome.trace, Outcome.state?]
  | some ps => simp [Popup.create, Outcome.trace, Outcome.state?]

/-- Witness for C16: parent geometry (100, 100, 300, 200) without decoration, own geometry
(150, 140, 50, 50): anchor rectangle (50, 40, 1, 1) and size (50, 50). -/
theorem setPopup_positioner_requests_witness :
    QWaylandXdgSurface.new.hasRole = false ∧
    InInt32 (150 - 100) ∧ InInt32 (140 - 100) ∧
    (QWaylandXdgSurface.setPopup QWaylandXdgSurface.new
      ⟨⟨150, 140, 50, 50⟩, Qt.WindowNoState, none, none⟩ (some 9)
      ⟨⟨100, 100, 300, 200⟩, Qt.WindowNoState, none,
        some { QWaylandXdgSurface.new with m_toplevel := some (Toplevel.new (some 1)) }⟩
      ⟨5, 41⟩ 41 true).trace =
      [Effect.create_positioner, Effect.set_anchor_rect 50 40 1 1,
       Effect.set_anchor anchor_top_left, Effect.set_gravity gravity_bottom_right,
       Effect.set_size 50 50, Effect.get_popup, Effect.positioner_destroy,
       Effect.popup_grab 5 41] :=
  ⟨by decide, by decide, by decide,
   (setPopup_positioner_requests QWaylandXdgSurface.new
      ⟨⟨150, 140, 50, 50⟩, Qt.WindowNoState, none, none⟩
      ⟨⟨100, 100, 300, 200⟩, Qt.WindowNoState, none,
        some { QWaylandXdgSurface.new with m_toplevel := some (Toplevel.new (some 1)) }⟩
      (some 9) ⟨5, 41⟩ 41 true (by decide) (by decide) (by decide)
      (by intro m h; cases h) (by intro m h; cases h)).1.trans (by decide)⟩

/-- C17: `move(inputDevice)` has no assertion: with an initialized `Toplevel` attached it
returns true and sends exactly one `xdg_toplevel.move` with the device's seat and serial;
otherwise (no toplevel, so also with a popup role, or a toplevel that is not initialized)
it returns false and sends nothing; the surface is unchanged either way.
`resize(inputDevice, edges)` fails its assertion exactly when no initialized `Toplevel` is
attached. -/
theorem move_returns_flag_resize_asserts (s : QWaylandXdgSurface)
    (inputDevice : QWaylandInputDevice) (edges : Nat) :
    (s.hasInitializedToplevel = true ↔
      ∃ t, s.m_toplevel = some t ∧ t.object.isSome = true) ∧
    (s.hasInitializedToplevel = true →
      s.move inputDevice =
        (s, true, [Effect.toplevel_move inputDevice.wl_seat inputDevice.serial])) ∧
    (s.hasInitializedToplevel = false → s.move inputDevice = (s, false, [])) ∧
    (s.move inputDevice).1 = s ∧
    (s.step (SurfaceOp.move inputDevice)).failed = false ∧
    ((s.resize inputDevice edges).failed = true ↔ s.hasInitializedToplevel = false) ∧
    (s.hasInitializedToplevel = false →
      s.resize inputDevice edges = Outcome.assertFailed []) := by
  refine ⟨?_, ?_, ?_, ?_, rfl, ?_, ?_⟩
  · unfold QWaylandXdgSurface.hasInitializedToplevel
    cases s.m_toplevel with
    | none => simp
    | some t => simp
  · intro h
    simp [QWaylandXdgSurface.move, h]
  · intro h
    simp [QWaylandXdgSurface.move, h]
  · unfold QWaylandXdgSurface.move
    split <;> rfl
  · unfold QWaylandXdgSurface.resize
    cases h : s.hasInitializedToplevel <;> simp [Outcome.failed]
  · intro h
    simp [QWaylandXdgSurface.resize, h]

/-- Witness for C17: a surface with a popup role: `move` returns false and sends nothing,
`resize` fails its assertion. -/
theorem move_returns_flag_resize_asserts_witness :
    QWaylandXdgSurface.hasInitializedToplevel
      { QWaylandXdgSurface.new with m_popup := some { object := some 2 } } = false ∧
    QWaylandXdgSurface.move
      { QWaylandXdgSurface.new with m_popup := some { object := some 2 } } ⟨5, 41⟩ =
      ({ QWaylandXdgSurface.new with m_popup := some { object := some 2 } }, false, []) ∧
    QWaylandXdgSurface.resize
      { QWaylandXdgSurface.new with m_popup := some { object := some 2 } } ⟨5, 41⟩ 8 =
      Outcome.assertFailed [] :=
  ⟨by decide,
   (move_returns_flag_resize_asserts
      { QWaylandXdgSurface.new with m_popup := some { object := some 2 } }
      ⟨5, 41⟩ 8).2.2.1 (by decide),
   (move_returns_flag_resize_asserts
      { QWaylandXdgSurface.new with m_popup := some { object := some 2 } }
      ⟨5, 41⟩ 8).2.2.2.2.2.2 (by decide)⟩

/-- C18: for every serial, `xdg_wm_base_ping(serial)` sends exactly one request,
`pong(serial)`, whatever the state of the shell object, and leaves that object as it is. -/
theorem ping_answers_pong (shell : QWaylandXdgShell) (serial : Nat) :
    (shell.xdg_wm_base_ping serial).2 = [Effect.pong serial] ∧
    (shell.xdg_wm_base_ping serial).1 = shell :=
  ⟨rfl, rfl⟩

theorem testBit_and_flagsNot_two_pow (s k i : Nat) :
    (s &&& flagsNot (2 ^ k)).testBit i =
      (s.testBit i && (decide (i < 32) ^^ decide (k = i))) := by
  unfold flagsNot
  rw [Nat.testBit_and, Nat.testBit_xor, Nat.testBit_two_pow_sub_one, Nat.testBit_two_pow]

/-- C19: `Toplevel::applyConfigure()` forwards to `handleWindowStatesChanged` the pending
flags with Active cleared (Active is never in the forwarded set, Minimized, Maximized and
FullScreen are there exactly when they are pending), passes to `resizeFromApplyConfigure`
the resolved pending size (the remembered normal size when the received size is empty and
the normal size is not, otherwise the received size), and ends with `m_applied` equal to
that resolved pending snapshot, size and flags. -/
theorem toplevel_applyConfigure_forwards_and_applies (t : Toplevel) (frameSize : QSize) :
    (t.applyConfigure frameSize).2.filterMap Effect.statesChangedArg =
      [t.m_pending.states &&& flagsNot Qt.WindowActive] ∧
    hasFlag (t.m_pending.states &&& flagsNot Qt.WindowActive) Qt.WindowActive = false ∧
    hasFlag (t.m_pending.states &&& flagsNot Qt.WindowActive) Qt.WindowMinimized =
      hasFlag t.m_pending.states Qt.WindowMinimized ∧
    hasFlag (t.m_pending.states &&& flagsNot Qt.WindowActive) Qt.WindowMaximized =
      hasFlag t.m_pending.states Qt.WindowMaximized ∧
    hasFlag (t.m_pending.states &&& flagsNot Qt.WindowActive) Qt.WindowFullScreen =
      hasFlag t.m_pending.states Qt.WindowFullScreen ∧
    (t.applyConfigure frameSize).2.filterMap Effect.resizeArg =
      [(t.applyConfigure frameSize).1.m_applied.size] ∧
    (t.applyConfigure frameSize).1.m_applied.size =
      (if t.m_pending.size.isEmpty && !(t.applyConfigure frameSize).1.m_normalSize.isEmpty
        then (t.applyConfigure frameSize).1.m_normalSize else t.m_pending.size) ∧
    (t.applyConfigure frameSize).1.m_applied.states = t.m_pending.states ∧
    (t.applyConfigure frameSize).1.m_pending = (t.applyConfigure frameSize).1.m_applied := by
  have hbit : ∀ i, (t.m_pending.states &&& flagsNot Qt.WindowActive).testBit i =
      (t.m_pending.states.testBit i && (decide (i < 32) ^^ decide (3 = i))) :=
    fun i => testBit_and_flagsNot_two_pow t.m_pending.states 3 i
  refine ⟨?_, ?_, ?_, ?_, ?_, ?_, rfl, rfl, rfl⟩
  · unfold Toplevel.applyConfigure
    simp only [List.filterMap_append]
    split <;> split <;> simp [Effect.statesChangedArg, List.filterMap_cons]
  · rw [show Qt.WindowActive = 2 ^ 3 from rfl] at hbit ⊢
    rw [hasFlag_two_pow, hbit]
    simp
  · rw [hasFlag_minimized, hasFlag_minimized, hbit]
    simp
  · rw [hasFlag_maximized, hasFlag_maximized, hbit]
    simp
  · rw [hasFlag_fullscreen, hasFlag_fullscreen, hbit]
    simp
  · unfold Toplevel.applyConfigure
    simp only [List.filterMap_append]
    split <;> split <;> simp [Effect.resizeArg, List.filterMap_cons]

/-- C20: `Toplevel::requestWindowStates(S)` sends `set_minimized` exactly once when S has
Minimized and not at all otherwise, whatever the applied state is and however often the
request is repeated; exactly when it does, it calls `handleWindowStatesChanged` once, with
S without the Minimized bit, and otherwise it makes no such call; the toplevel object
(pending and applied snapshots, remembered normal size) is left as it was. -/
theorem requestWindowStates_minimized (t t2 : Toplevel) (S : WindowStates) :
    (Effect.set_minimized ∈ (t.requestWindowStates S).2 ↔
      hasFlag S Qt.WindowMinimized = true) ∧
    (t.requestWindowStates S).2.count Effect.set_minimized =
      (if hasFlag S Qt.WindowMinimized then 1 else 0) ∧
    (t2.requestWindowStates S).2.count Effect.set_minimized =
      (t.requestWindowStates S).2.count Effect.set_minimized ∧
    ((t.requestWindowStates S).1.requestWindowStates S).2 = (t.requestWindowStates S).2 ∧
    (t.requestWindowStates S).2.filterMap Effect.statesChangedArg =
      (if hasFlag S Qt.WindowMinimized then [S &&& flagsNot Qt.WindowMinimized] else []) ∧
    hasFlag (S &&& flagsNot Qt.WindowMinimized) Qt.WindowMinimized = false ∧
    (t.requestWindowStates S).1 = t := by
  have hcount : ∀ u : Toplevel, (u.requestWindowStates S).2.count Effect.set_minimized =
      (if hasFlag S Qt.WindowMinimized then 1 else 0) := by
    intro u
    unfold Toplevel.requestWindowStates
    simp only [List.count_append]
    split_ifs <;> simp [List.count_cons]
  refine ⟨?_, hcount t, ?_, rfl, ?_, ?_, rfl⟩
  · rw [← List.count_pos_iff, hcount t]
    cases hasFlag S Qt.WindowMinimized <;> simp
  · rw [hcount t, hcount t2]
  · unfold Toplevel.requestWindowStates
    simp only [List.filterMap_append]
    split_ifs <;> simp [Effect.statesChangedArg, List.filterMap_cons]
  · rw [show Qt.WindowMinimized = 2 ^ 0 from rfl, hasFlag_two_pow,
      testBit_and_flagsNot_two_pow]
    simp

/-! ## The flags a toplevel can hold -/

theorem flagsSubset_or (x f mask : WindowStates) (hx : flagsSubset x mask)
    (hf : flagsSubset f mask) : flagsSubset (x ||| f) mask := by
  unfold flagsSubset at *
  rw [Nat.and_comm, Nat.and_or_distrib_left, Nat.and_comm mask x, Nat.and_comm mask f, hx, hf]

theorem decodeState_flagsSubset (c : XdgToplevelStateCodes) (x : WindowStates) (code : Nat)
    (hx : flagsSubset x (Qt.WindowActive ||| Qt.WindowMaximized ||| Qt.WindowFullScreen)) :
    flagsSubset (decodeState c x code)
      (Qt.WindowActive ||| Qt.WindowMaximized ||| Qt.WindowFullScreen) := by
  unfold decodeState
  split_ifs
  · exact flagsSubset_or _ _ _ hx (by decide)
  · exact flagsSubset_or _ _ _ hx (by decide)
  · exact flagsSubset_or _ _ _ hx (by decide)
  · exact hx

theorem foldl_decodeState_flagsSubset (c : XdgToplevelStateCodes) (codes : List Nat)
    (x : WindowStates)
    (hx : flagsSubset x (Qt.WindowActive ||| Qt.WindowMaximized ||| Qt.WindowFullScreen)) :
    flagsSubset (codes.foldl (decodeState c) x)
      (Qt.WindowActive ||| Qt.WindowMaximized ||| Qt.WindowFullScreen) := by
  induction codes generalizing x with
  | nil => exact hx
  | cons code rest ih => exact ih _ (decodeState_flagsSubset c x code hx)

theorem toplevel_step_flagsSubset (c : XdgToplevelStateCodes) (t : Toplevel) (op : ToplevelOp)
    (hp : flagsSubset t.m_pending.states
      (Qt.WindowActive ||| Qt.WindowMaximized ||| Qt.WindowFullScreen))
    (ha : flagsSubset t.m_applied.states
      (Qt.WindowActive ||| Qt.WindowMaximized ||| Qt.WindowFullScreen)) :
    flagsSubset (t.step c op).1.m_pending.states
      (Qt.WindowActive ||| Qt.WindowMaximized ||| Qt.WindowFullScreen) ∧
    flagsSubset (t.step c op).1.m_applied.states
      (Qt.WindowActive ||| Qt.WindowMaximized ||| Qt.WindowFullScreen) := by
  cases op with
  | configure width height states =>
    exact ⟨foldl_decodeState_flagsSubset c states Qt.WindowNoState (by decide), ha⟩
  | applyConfigure frameSize => exact ⟨hp, hp⟩
  | requestWindowStates states => exact ⟨hp, ha⟩

theorem toplevel_run_flagsSubset (c : XdgToplevelStateCodes) (ops : List ToplevelOp)
    (t : Toplevel)
    (hp : flagsSubset t.m_pending.states
      (Qt.WindowActive ||| Qt.WindowMaximized ||| Qt.WindowFullScreen))
    (ha : flagsSubset t.m_applied.states
      (Qt.WindowActive ||| Qt.WindowMaximized ||| Qt.WindowFullScreen)) :
    flagsSubset (t.run c ops).1.m_pending.states
      (Qt.WindowActive ||| Qt.WindowMaximized ||| Qt.WindowFullScreen) ∧
    flagsSubset (t.run c ops).1.m_applied.states
      (Qt.WindowActive ||| Qt.WindowMaximized ||| Qt.WindowFullScreen) := by
  induction ops generalizing t with
  | nil => exact ⟨hp, ha⟩
  | cons op rest ih =>
    obtain ⟨hp2, ha2⟩ := toplevel_step_flagsSubset c t op hp ha
    exact ih (t.step c op).1 hp2 ha2

theorem flagsSubset_not_minimized (x : WindowStates)
    (hx : flagsSubset x (Qt.WindowActive ||| Qt.WindowMaximized ||| Qt.WindowFullScreen)) :
    hasFlag x Qt.WindowMinimized = false := by
  unfold flagsSubset at hx
  unfold hasFlag
  have h0 : x &&& Qt.WindowMinimized = 0 := by
    rw [← hx, Nat.and_assoc]
    have : (Qt.WindowActive ||| Qt.WindowMaximized ||| Qt.WindowFullScreen) &&&
        Qt.WindowMinimized = 0 := by decide
    rw [this, Nat.and_zero]
  simp [h0]

/-- C21: in every state of a `Toplevel` reached from its construction (with any window
states, Minimized included, re-asserted by the constructor) by any sequence of toplevel
configure events with arbitrary code arrays, `applyConfigure()` calls and
`requestWindowStates` calls with arbitrary sets, the pending and the applied flag sets are
subsets of Active | Maximized | FullScreen, and neither contains Minimized. -/
theorem toplevel_states_never_minimized (c : XdgToplevelStateCodes) (proxy : Option Nat)
    (windowStates : WindowStates) (ops : List ToplevelOp) :
    flagsSubset (((Toplevel.create proxy windowStates).1.run c ops).1.m_pending.states)
      (Qt.WindowActive ||| Qt.WindowMaximized ||| Qt.WindowFullScreen) ∧
    flagsSubset (((Toplevel.create proxy windowStates).1.run c ops).1.m_applied.states)
      (Qt.WindowActive ||| Qt.WindowMaximized ||| Qt.WindowFullScreen) ∧
    hasFlag (((Toplevel.create proxy windowStates).1.run c ops).1.m_pending.states)
      Qt.WindowMinimized = false ∧
    hasFlag (((Toplevel.create proxy windowStates).1.run c ops).1.m_applied.states)
      Qt.WindowMinimized = false := by
  have hinit : flagsSubset Qt.WindowNoState
      (Qt.WindowActive ||| Qt.WindowMaximized ||| Qt.WindowFullScreen) := by decide
  obtain ⟨hp, ha⟩ := toplevel_run_flagsSubset c ops (Toplevel.create proxy windowStates).1
    hinit hinit
  exact ⟨hp, ha, flagsSubset_not_minimized _ hp, flagsSubset_not_minimized _ ha⟩

/-! ## Facts about the expose buffer -/

theorem xdg_surface_configure_expose (s : QWaylandXdgSurface) (serial : Nat) :
    (s.xdg_surface_configure serial).2.filterMap Effect.exposeArg =
      (if QRegion.isEmpty s.m_exposeRegion then [] else [s.m_exposeRegion]) ∧
    (s.xdg_surface_configure serial).1.m_exposeRegion = QRegion.empty := by
  unfold QWaylandXdgSurface.xdg_surface_configure
  cases he : QRegion.isEmpty s.m_exposeRegion with
  | false => simp [Effect.exposeArg]
  | true =>
    simp only [Bool.not_true, Bool.false_eq_true, if_false, if_true]
    refine ⟨by simp [Effect.exposeArg], ?_⟩
    show s.m_exposeRegion = []
    unfold QRegion.isEmpty at he
    cases hr : s.m_exposeRegion with
    | nil => rfl
    | cons a b => rw [hr] at he; simp at he

theorem toplevel_requestWindowStates_no_expose (t : Toplevel) (S : WindowStates) :
    (t.requestWindowStates S).2.filterMap Effect.exposeArg = [] := by
  unfold Toplevel.requestWindowStates
  simp only [List.filterMap_append]
  split_ifs <;> simp [Effect.exposeArg, List.filterMap_cons]

theorem toplevel_applyConfigure_no_expose (t : Toplevel) (frameSize : QSize) :
    (t.applyConfigure frameSize).2.filterMap Effect.exposeArg = [] := by
  unfold Toplevel.applyConfigure
  simp only [List.filterMap_append]
  split_ifs <;> simp [Effect.exposeArg, List.filterMap_cons]

theorem setToplevel_no_expose (s : QWaylandXdgSurface) (window : QWaylandWindow)
    (proxy : Option Nat) :
    (s.setToplevel window proxy).trace.filterMap Effect.exposeArg = [] := by
  unfold QWaylandXdgSurface.setToplevel
  split
  · rfl
  · simp [Outcome.trace, Toplevel.create, Effect.exposeArg,
      toplevel_requestWindowStates_no_expose]

theorem setPopup_no_expose (s : QWaylandXdgSurface) (window : QWaylandWindow)
    (proxy : Option Nat) (parent : QWaylandWindow) (device : QWaylandInputDevice)
    (serial : Int) (grab : Bool) :
    (s.setPopup window proxy parent device serial grab).trace.filterMap Effect.exposeArg
      = [] := by
  unfold QWaylandXdgSurface.setPopup
  split
  · rfl
  · cases parent.shellSurface <;> cases grab <;>
      simp [Popup.create, Outcome.trace, Effect.exposeArg]

theorem setType_no_expose (s : QWaylandXdgSurface) (window : QWaylandWindow)
    (display : QWaylandDisplay) (proxy : Option Nat) (type : WindowType)
    (transientParent : Option QWaylandWindow) :
    (s.setType window display proxy type transientParent).trace.filterMap Effect.exposeArg
      = [] := by
  unfold QWaylandXdgSurface.setType
  split
  · exact setPopup_no_expose _ _ _ _ _ _ _
  · have h := setToplevel_no_expose s window proxy
    split
    · rename_i s1 tr hst
      rw [hst] at h
      have htr : tr.filterMap Effect.exposeArg = [] := h
      split
      · exact htr
      · split
        · exact htr
        · split
          · exact htr
          · simp [Outcome.trace, htr, Effect.exposeArg]
    · rename_i tr hst
      rw [hst] at h
      exact h
    · rename_i tr hst
      rw [hst] at h
      exact h

theorem surface_applyConfigure_no_expose (s : QWaylandXdgSurface) (frameSize : QSize) :
    (s.applyConfigure frameSize).trace.filterMap Effect.exposeArg = [] := by
  unfold QWaylandXdgSurface.applyConfigure
  split
  · rfl
  · cases s.m_toplevel <;> cases s.m_popup <;>
      simp [Outcome.trace, Popup.applyConfigure, Effect.exposeArg,
        toplevel_applyConfigure_no_expose]

theorem step_no_expose (s : QWaylandXdgSurface) (op : SurfaceOp)
    (h : op.isSurfaceConfigure = false) :
    (s.step op).trace.filterMap Effect.exposeArg = [] := by
  cases op with
  | setToplevel window proxy => exact setToplevel_no_expose _ _ _
  | setPopup window proxy parent device serial grab => exact setPopup_no_expose _ _ _ _ _ _ _
  | setType window display proxy type transientParent => exact setType_no_expose _ _ _ _ _ _
  | surfaceConfigure serial => cases h
  | toplevelConfigure codes width height states => rfl
  | applyConfigure frameSize => exact surface_applyConfigure_no_expose _ _
  | handleExpose region => rfl
  | requestWindowStates states =>
    simp only [QWaylandXdgSurface.step, Outcome.trace,
      QWaylandXdgSurface.requestWindowStates]
    split
    · exact toplevel_requestWindowStates_no_expose _ _
    · rfl
  | setTitle title =>
    simp only [QWaylandXdgSurface.step, Outcome.trace, QWaylandXdgSurface.setTitle]
    split <;> rfl
  | setAppId appId =>
    simp only [QWaylandXdgSurface.step, Outcome.trace, QWaylandXdgSurface.setAppId]
    split <;> rfl
  | move inputDevice =>
    simp only [QWaylandXdgSurface.step, Outcome.trace, QWaylandXdgSurface.move]
    split <;> rfl

theorem setToplevel_buffer (s s2 : QWaylandXdgSurface) (window : QWaylandWindow)
    (proxy : Option Nat) (tr : List Effect)
    (h : s.setToplevel window proxy = Outcome.done s2 tr) :
    s2.m_exposeRegion = s.m_exposeRegion := by
  unfold QWaylandXdgSurface.setToplevel at h
  split at h
  · cases h
  · injection h with hs _
    subst hs
    rfl

theorem setPopup_buffer (s s2 : QWaylandXdgSurface) (window : QWaylandWindow)
    (proxy : Option Nat) (parent : QWaylandWindow) (device : QWaylandInputDevice)
    (serial : Int) (grab : Bool) (tr : List Effect)
    (h : s.setPopup window proxy parent device serial grab = Outcome.done s2 tr) :
    s2.m_exposeRegion = s.m_exposeRegion := by
  unfold QWaylandXdgSurface.setPopup at h
  split at h
  · cases h
  · cases hps : parent.shellSurface with
    | none => simp [hps, Popup.create] at h
    | some ps =>
      simp only [hps, Popup.create] at h
      injection h with hs _
      subst hs
      rfl

theorem setType_buffer (s s2 : QWaylandXdgSurface) (window : QWaylandWindow)
    (display : QWaylandDisplay) (proxy : Option Nat) (type : WindowType)
    (transientParent : Option QWaylandWindow) (tr : List Effect)
    (h : s.setType window display proxy type transientParent = Outcome.done s2 tr) :
    s2.m_exposeRegion = s.m_exposeRegion := by
  unfold QWaylandXdgSurface.setType at h
  split at h
  · exact setPopup_buffer _ _ _ _ _ _ _ _ _ h
  · split at h
    · rename_i s1 tr1 hst
      have h1 := setToplevel_buffer _ _ _ _ _ hst
      have hs : s2 = s1 := by
        split at h
        · injection h with hs _; exact hs.symm
        · split at h
          · injection h with hs _; exact hs.symm
          · split at h
            · cases h
            · injection h with hs _; exact hs.symm
      rw [hs]
      exact h1
    · cases h
    · cases h

theorem step_buffer (s s2 : QWaylandXdgSurface) (op : SurfaceOp) (tr : List Effect)
    (hc : op.isSurfaceConfigure = false) (hs : s.suppresses op = false)
    (h : s.step op = Outcome.done s2 tr) :
    s2.m_exposeRegion = s.m_exposeRegion := by
  cases op with
  | setToplevel window proxy => exact setToplevel_buffer _ _ _ _ _ h
  | setPopup window proxy parent device serial grab =>
    exact setPopup_buffer _ _ _ _ _ _ _ _ _ h
  | setType window display proxy type transientParent =>
    exact setType_buffer _ _ _ _ _ _ _ _ h
  | surfaceConfigure serial => cases hc
  | toplevelConfigure codes width height states =>
    simp only [QWaylandXdgSurface.step] at h
    injection h with hst _
    subst hst
    rfl
  | applyConfigure frameSize =>
    simp only [QWaylandXdgSurface.step, QWaylandXdgSurface.applyConfigure] at h
    split at h
    · cases h
    · injection h with hst _
      subst hst
      rfl
  | handleExpose region =>
    simp only [QWaylandXdgSurface.step] at h
    injection h with hst _
    subst hst
    have hret : (s.handleExpose region).2 = false := hs
    unfold QWaylandXdgSurface.handleExpose at hret ⊢
    split
    · rename_i hcond
      rw [if_pos hcond] at hret
      cases hret
    · rfl
  | requestWindowStates states =>
    simp only [QWaylandXdgSurface.step] at h
    injection h with hst _
    subst hst
    unfold QWaylandXdgSurface.requestWindowStates
    split <;> rfl
  | setTitle title =>
    simp only [QWaylandXdgSurface.step] at h
    injection h with hst _
    subst hst
    unfold QWaylandXdgSurface.setTitle
    split <;> rfl
  | setAppId appId =>
    simp only [QWaylandXdgSurface.step] at h
    injection h with hst _
    subst hst
    unfold QWaylandXdgSurface.setAppId
    split <;> rfl
  | move inputDevice =>
    simp only [QWaylandXdgSurface.step] at h
    injection h with hst _
    subst hst
    unfold QWaylandXdgSurface.move
    split <;> rfl

theorem run_keeps_buffer (ops : List SurfaceOp) (s s2 : QWaylandXdgSurface) (tr : List Effect)
    (hc : ∀ op ∈ ops, op.isSurfaceConfigure = false) (hs : s.suppressesIn ops = false)
    (h : s.run ops = Outcome.done s2 tr) :
    s2.m_exposeRegion = s.m_exposeRegion ∧ tr.filterMap Effect.exposeArg = [] := by
  induction ops generalizing s tr with
  | nil =>
    simp only [QWaylandXdgSurface.run] at h
    injection h with h1 h2
    subst h1
    subst h2
    exact ⟨rfl, rfl⟩
  | cons op rest ih =>
    have hop : op.isSurfaceConfigure = false := hc op (List.mem_cons_self _ _)
    have hrest : ∀ o ∈ rest, o.isSurfaceConfigure = false :=
      fun o ho => hc o (List.mem_cons_of_mem _ ho)
    simp only [QWaylandXdgSurface.suppressesIn, Bool.or_eq_false_iff] at hs
    obtain ⟨hs1, hs2⟩ := hs
    have htrace := step_no_expose s op hop
    simp only [QWaylandXdgSurface.run] at h
    split at h
    · rename_i s1 tr1 hstep
      rw [hstep] at hs2 htrace
      have hbuf := step_buffer s s1 op tr1 hop hs1 hstep
      split at h
      · rename_i s3 tr3 hrun
        injection h with h1 h2
        subst h1
        subst h2
        obtain ⟨hb, ht⟩ := ih s1 tr3 hrest hs2 hrun
        refine ⟨hb.trans hbuf, ?_⟩
        have htr1 : tr1.filterMap Effect.exposeArg = [] := htrace
        rw [List.filterMap_append, htr1, ht]
        rfl
      · cases h
      · cases h
    · cases h
    · cases h

theorem step_when_buffer_empty (s : QWaylandXdgSurface) (op : SurfaceOp)
    (he : QRegion.isEmpty s.m_exposeRegion = true) (hs : s.suppresses op = false) :
    (s.step op).trace.filterMap Effect.exposeArg = [] ∧
    ∀ s1 tr1, s.step op = Outcome.done s1 tr1 →
      QRegion.isEmpty s1.m_exposeRegion = true := by
  cases hc : op.isSurfaceConfigure with
  | false =>
    refine ⟨step_no_expose s op hc, ?_⟩
    intro s1 tr1 hstep
    rw [step_buffer s s1 op tr1 hc hs hstep]
    exact he
  | true =>
    cases op with
    | surfaceConfigure serial =>
      obtain ⟨h1, h2⟩ := xdg_surface_configure_expose s serial
      constructor
      · show (s.xdg_surface_configure serial).2.filterMap Effect.exposeArg = []
        rw [h1, he]
        rfl
      · intro s1 tr1 hstep
        simp only [QWaylandXdgSurface.step] at hstep
        injection hstep with hst _
        subst hst
        rw [h2]
        rfl
    | setToplevel window proxy => cases hc
    | setPopup window proxy parent device serial grab => cases hc
    | setType window display proxy type transientParent => cases hc
    | toplevelConfigure codes width height states => cases hc
    | applyConfigure frameSize => cases hc
    | handleExpose region => cases hc
    | requestWindowStates states => cases hc
    | setTitle title => cases hc
    | setAppId appId => cases hc
    | move inputDevice => cases hc

theorem run_when_buffer_empty (ops : List SurfaceOp) (s : QWaylandXdgSurface)
    (he : QRegion.isEmpty s.m_exposeRegion = true) (hs : s.suppressesIn ops = false) :
    (s.run ops).trace.filterMap Effect.exposeArg = [] := by
  induction ops generalizing s with
  | nil => rfl
  | cons op rest ih =>
    simp only [QWaylandXdgSurface.suppressesIn, Bool.or_eq_false_iff] at hs
    obtain ⟨hs1, hs2⟩ := hs
    obtain ⟨htrace, hnext⟩ := step_when_buffer_empty s op he hs1
    simp only [QWaylandXdgSurface.run]
    split
    · rename_i s1 tr1 hstep
      rw [hstep] at hs2 htrace
      have htr1 : tr1.filterMap Effect.exposeArg = [] := htrace
      have hrec := ih s1 (hnext s1 tr1 hstep) hs2
      split
      · rename_i s3 tr3 hrun
        rw [hrun] at hrec
        have htr3 : tr3.filterMap Effect.exposeArg = [] := hrec
        simp [Outcome.trace, htr1, htr3]
      · rename_i tr3 hrun
        rw [hrun] at hrec
        have htr3 : tr3.filterMap Effect.exposeArg = [] := hrec
        simp [Outcome.trace, htr1, htr3]
      · rename_i tr3 hrun
        rw [hrun] at hrec
        have htr3 : tr3.filterMap Effect.exposeArg = [] := hrec
        simp [Outcome.trace, htr1, htr3]
    · rename_i tr1 hstep
      rw [hstep] at htrace
      exact htrace
    · rename_i tr1 hstep
      rw [hstep] at htrace
      exact htrace

/-- C10: a surface configure event on any surface, configured or not, makes one
`handleExposeEvent` call carrying the buffered region when the buffer is not empty and none
when it is empty, and leaves the buffer empty. So if `handleExpose(R)` with non-empty R is
called on an unconfigured surface, it is suppressed, and after any completed operations
that are neither a surface configure event nor a suppressed `handleExpose` (an
`applyConfigure()` for instance, which makes no such call itself) the next surface
configure event makes exactly one `handleExposeEvent` call, carrying R, and empties the
buffer; after that, any run of operations without a suppressed `handleExpose`, further
configure events included, makes no `handleExposeEvent` call. The same holds for any run
that starts with an empty buffer. -/
theorem configure_replays_buffered_expose (s : QWaylandXdgSurface) (R : QRegion)
    (serial : Nat) (mid further : List SurfaceOp) (serials : List Nat) :
    ((s.xdg_surface_configure serial).2.filterMap Effect.exposeArg =
        (if QRegion.isEmpty s.m_exposeRegion then [] else [s.m_exposeRegion]) ∧
      (s.xdg_surface_configure serial).1.m_exposeRegion = QRegion.empty) ∧
    (QRegion.isEmpty s.m_exposeRegion = true →
      (s.xdg_surface_configure serial).2.filterMap Effect.exposeArg = []) ∧
    (QRegion.isEmpty s.m_exposeRegion = true → s.suppressesIn further = false →
      (s.run further).trace.filterMap Effect.exposeArg = []) ∧
    (s.m_configured = false → QRegion.isEmpty R = false →
      (∀ op ∈ mid, op.isSurfaceConfigure = false) →
      (s.handleExpose R).1.suppressesIn mid = false →
      ∀ s1 tr1, (s.handleExpose R).1.run mid = Outcome.done s1 tr1 →
        (s.handleExpose R).2 = true ∧
        tr1.filterMap Effect.exposeArg = [] ∧
        (s1.xdg_surface_configure serial).2.filterMap Effect.exposeArg = [R] ∧
        (s1.xdg_surface_configure serial).1.m_exposeRegion = QRegion.empty ∧
        ((s1.xdg_surface_configure serial).1.configureAll serials).2.filterMap
          Effect.exposeArg = [] ∧
        ((s1.xdg_surface_configure serial).1.suppressesIn further = false →
          ((s1.xdg_surface_configure serial).1.run further).trace.filterMap
            Effect.exposeArg = [])) := by
  refine ⟨xdg_surface_configure_expose s serial, ?_, ?_, ?_⟩
  · intro he
    rw [(xdg_surface_configure_expose s serial).1, he]
    rfl
  · intro he hs
    exact run_when_buffer_empty further s he hs
  · intro hc hr hmid hsup s1 tr1 hrun
    have hx : s.handleExpose R = ({ s with m_exposeRegion := R }, true) := by
      simp [QWaylandXdgSurface.handleExpose, hc, hr]
    obtain ⟨hbuf, htr⟩ := run_keeps_buffer mid (s.handleExpose R).1 s1 tr1 hmid hsup hrun
    have hbuf2 : s1.m_exposeRegion = R := by
      rw [hbuf, hx]
    obtain ⟨h1, h2⟩ := xdg_surface_configure_expose s1 serial
    have hempty : QRegion.isEmpty (s1.xdg_surface_configure serial).1.m_exposeRegion
        = true := by
      rw [h2]
      rfl
    refine ⟨by rw [hx], htr, ?_, h2, ?_, ?_⟩
    · rw [h1, hbuf2, hr]
      rfl
    · exact (configureAll_no_expose serials _ hempty).1
    · intro hs
      exact run_when_buffer_empty further _ hempty hs

/-- Witness for C10: a fresh surface gets configure 1, then `handleExpose` buffers a region,
`applyConfigure()` completes, and configure 2 replays the region once; after it an
`applyConfigure()`, a `handleExpose` that is not suppressed and configure 3 replay nothing. -/
theorem configure_replays_buffered_expose_witness :
    (QWaylandXdgSurface.new.xdg_surface_configure 1).1.m_configured = false ∧
    QRegion.isEmpty [⟨0, 0, 800, 600⟩] = false ∧
    ((QWaylandXdgSurface.new.xdg_surface_configure 1).1.handleExpose
        [⟨0, 0, 800, 600⟩]).1.run [SurfaceOp.applyConfigure ⟨800, 600⟩] =
      Outcome.done
        { QWaylandXdgSurface.new with
          m_configured := true, m_exposeRegion := [⟨0, 0, 800, 600⟩] }
        [Effect.ack_configure 1] ∧
    (QWaylandXdgSurface.xdg_surface_configure
        { QWaylandXdgSurface.new with
          m_configured := true, m_exposeRegion := [⟨0, 0, 800, 600⟩] }
        2).2.filterMap Effect.exposeArg = [[⟨0, 0, 800, 600⟩]] ∧
    ((QWaylandXdgSurface.xdg_surface_configure
        { QWaylandXdgSurface.new with
          m_configured := true, m_exposeRegion := [⟨0, 0, 800, 600⟩] }
        2).1.run
        [SurfaceOp.applyConfigure ⟨800, 600⟩, SurfaceOp.handleExpose [⟨0, 0, 10, 10⟩],
         SurfaceOp.surfaceConfigure 3]).trace.filterMap Effect.exposeArg = [] :=
  ⟨by decide, by decide, by decide,
   ((configure_replays_buffered_expose (QWaylandXdgSurface.new.xdg_surface_configure 1).1
      [⟨0, 0, 800, 600⟩] 2 [SurfaceOp.applyConfigure ⟨800, 600⟩]
      [SurfaceOp.applyConfigure ⟨800, 600⟩, SurfaceOp.handleExpose [⟨0, 0, 10, 10⟩],
       SurfaceOp.surfaceConfigure 3] [3]).2.2.2
      (by decide) (by decide) (by decide) (by decide)
      { QWaylandXdgSurface.new with
        m_configured := true, m_exposeRegion := [⟨0, 0, 800, 600⟩] }
      [Effect.ack_configure 1] (by decide)).2.2.1,
   ((configure_replays_buffered_expose (QWaylandXdgSurface.new.xdg_surface_configure 1).1
      [⟨0, 0, 800, 600⟩] 2 [SurfaceOp.applyConfigure ⟨800, 600⟩]
      [SurfaceOp.applyConfigure ⟨800, 600⟩, SurfaceOp.handleExpose [⟨0, 0, 10, 10⟩],
       SurfaceOp.surfaceConfigure 3] [3]).2.2.2
      (by decide) (by decide) (by decide) (by decide)
      { QWaylandXdgSurface.new with
        m_configured := true, m_exposeRegion := [⟨0, 0, 800, 600⟩] }
      [Effect.ack_configure 1] (by decide)).2.2.2.2.2 (by decide)⟩

end QtWaylandClient
